import Mathlib

set_option maxRecDepth 1000000

/-!
Verification development for the bitcoin-price-predictor data pipeline.

This file shallowly embeds the two algorithmic modules of the repository:

* `src/data/quality_check.py` (`DataQualityChecker`): the six-check data
  quality gate (`check_data_volume`, `check_null_values`, `check_schema`,
  `check_data_ranges`, `check_duplicates`, `check_data_freshness`,
  `run_all_checks`).
* `src/data/transform.py` (`CryptoFeatureEngineer`): the feature/label
  construction pipeline (`create_price_features`,
  `create_volatility_features`, `create_momentum_features`,
  `create_temporal_features`, `create_lag_features`,
  `create_target_variable`, `clean_features`).

Modelling conventions:

* Machine floats are modelled by `FV`: either NaN, +infinity, -infinity,
  or a finite rational.  Arithmetic follows IEEE-754 semantics on these
  cases (exact rational arithmetic stands in for rounded binary
  arithmetic; negative zero collapses to zero, which none of the checked
  properties distinguish).
* Irrational primitives used by the source (square root for `.std()`,
  sine/cosine for the cyclical encodings, calendar day-of-month
  extraction) are abstracted into an `Ops` record of rational-valued
  functions; every theorem quantifies over `Ops`, so it holds for every
  rounding of those primitives.
* Datetimes are minutes-since-epoch integers.  A timestamp cell that
  `pd.to_datetime` would fail to parse is modelled by the dedicated
  constructor `Cell.badtime` carrying the offending string, so parsing
  success/failure is part of the data model.
* Python exceptions are modelled with `Except String`.
-/

/-- IEEE-754 style scalar: NaN, +inf, -inf, or a finite rational. -/
inductive FV where
  | nan : FV
  | inf : FV
  | ninf : FV
  | fin (q : ℚ) : FV
deriving DecidableEq, Repr

/-- Is the value NaN? -/
def FV.isNan : FV → Bool
  | .nan => true
  | _ => false

/-- Is the value an infinity (of either sign)? -/
def FV.isInf : FV → Bool
  | .inf => true
  | .ninf => true
  | _ => false

/-- IEEE negation. -/
def FV.neg : FV → FV
  | .nan => .nan
  | .inf => .ninf
  | .ninf => .inf
  | .fin q => .fin (-q)

/-- IEEE addition (inf + (-inf) = NaN, NaN propagates). -/
def FV.add : FV → FV → FV
  | .nan, _ => .nan
  | _, .nan => .nan
  | .inf, .ninf => .nan
  | .ninf, .inf => .nan
  | .inf, _ => .inf
  | _, .inf => .inf
  | .ninf, _ => .ninf
  | _, .ninf => .ninf
  | .fin a, .fin b => .fin (a + b)

/-- IEEE subtraction. -/
def FV.sub (a b : FV) : FV := FV.add a (FV.neg b)

/-- IEEE multiplication (inf * 0 = NaN, sign rules for infinities). -/
def FV.mul : FV → FV → FV
  | .nan, _ => .nan
  | _, .nan => .nan
  | .inf, .inf => .inf
  | .inf, .ninf => .ninf
  | .ninf, .inf => .ninf
  | .ninf, .ninf => .inf
  | .inf, .fin b => if 0 < b then .inf else if b < 0 then .ninf else .nan
  | .fin a, .inf => if 0 < a then .inf else if a < 0 then .ninf else .nan
  | .ninf, .fin b => if 0 < b then .ninf else if b < 0 then .inf else .nan
  | .fin a, .ninf => if 0 < a then .ninf else if a < 0 then .inf else .nan
  | .fin a, .fin b => .fin (a * b)

/-- IEEE division: x/0 gives a signed infinity (0/0 gives NaN),
inf/inf gives NaN, finite/inf gives 0.  (No negative zero in the model.) -/
def FV.div : FV → FV → FV
  | .nan, _ => .nan
  | _, .nan => .nan
  | .inf, .inf => .nan
  | .inf, .ninf => .nan
  | .ninf, .inf => .nan
  | .ninf, .ninf => .nan
  | .fin _, .inf => .fin 0
  | .fin _, .ninf => .fin 0
  | .inf, .fin b => if b < 0 then .ninf else .inf
  | .ninf, .fin b => if b < 0 then .inf else .ninf
  | .fin a, .fin b =>
      if b = 0 then (if 0 < a then .inf else if a < 0 then .ninf else .nan)
      else .fin (a / b)

/-- IEEE `<` as a boolean: any comparison with NaN is false. -/
def FV.ltb : FV → FV → Bool
  | .nan, _ => false
  | _, .nan => false
  | .inf, _ => false
  | _, .inf => true
  | .ninf, .ninf => false
  | .ninf, _ => true
  | _, .ninf => false
  | .fin a, .fin b => decide (a < b)

/-- IEEE `≤` as a boolean: any comparison with NaN is false. -/
def FV.leb : FV → FV → Bool
  | .nan, _ => false
  | _, .nan => false
  | _, .inf => true
  | .inf, _ => false
  | .ninf, _ => true
  | _, .ninf => false
  | .fin a, .fin b => decide (a ≤ b)

/-- IEEE `>` as a boolean. -/
def FV.gtb (a b : FV) : Bool := FV.ltb b a

/-- IEEE `≥` as a boolean. -/
def FV.geb (a b : FV) : Bool := FV.leb b a

/-- Fold a list of values with IEEE addition starting from 0
(mirrors a pandas sum over the values of a window). -/
def FV.sumL (l : List FV) : FV := l.foldl FV.add (.fin 0)

/-!  ## Quality-check data model (`quality_check.py`)

A pandas DataFrame cell, as seen by the quality checker.  A float cell
holds an `FV` (NaN counts as null, as in pandas).  A timestamp cell
either parses to a datetime (`time`, minutes since epoch) or is a string
that `pd.to_datetime` rejects (`badtime`).  `na` is `None`/`NaT`.  The
model follows pandas in treating a numeric price column; comparisons on
non-numeric cells in the price column (which would raise `TypeError` in
pandas) are outside the modelled domain and return false. -/
inductive Cell where
  | num (v : FV) : Cell
  | time (t : ℤ) : Cell
  | badtime (s : String) : Cell
  | na : Cell
deriving DecidableEq, Repr

/-- `pd.isnull` on a cell: NaN floats and None/NaT are null. -/
def isNullCell : Cell → Bool
  | .num v => v.isNan
  | .na => true
  | _ => false

/-- A DataFrame column: name, dtype string (as `str(series.dtype)`), cells. -/
structure QCol where
  name : String
  dtype : String
  cells : List Cell
deriving DecidableEq, Repr

/-- A DataFrame: a list of columns (pandas column order). -/
structure QDF where
  cols : List QCol
deriving DecidableEq, Repr

/-- `len(df)`: the number of rows (length of the shared index; in the
column model, the length of the first column, 0 if no columns). -/
def QDF.nRows (df : QDF) : ℕ :=
  match df.cols with
  | [] => 0
  | c :: _ => c.cells.length

/-- `df.columns`. -/
def QDF.colNames (df : QDF) : List String := df.cols.map QCol.name

/-- `df[name]`, if the column exists. -/
def QDF.getCol? (df : QDF) (name : String) : Option QCol :=
  df.cols.find? (fun c => c.name == name)

/-- Configuration of `DataQualityChecker.__init__`. -/
structure QCConfig where
  null_threshold : ℚ
  schema_strict : Bool
deriving DecidableEq, Repr

/-- `self.required_columns`. -/
def requiredColumns : List String :=
  ["timestamp", "open", "high", "low", "close", "volume"]

/-- `self.expected_schema` (column name, expected dtype). -/
def expectedSchema : List (String × String) :=
  [("timestamp", "object"), ("open", "float64"), ("high", "float64"),
   ("low", "float64"), ("close", "float64"), ("volume", "float64"),
   ("volume_usd", "float64")]

/-- Per-column null percentage `(null_counts[col] / len(df)) * 100` as a
float value (NaN when the frame is empty, exactly as in pandas where
`0/0` is NaN). -/
def nullPct (df : QDF) (c : QCol) : FV :=
  FV.mul (FV.div (.fin ((c.cells.countP isNullCell : ℕ) : ℚ)) (.fin ((df.nRows : ℕ) : ℚ)))
    (.fin 100)

/-- `check_null_values`: a column fails when its null percentage exceeds
`null_threshold * 100`; the check passes when no column fails.  Returns
the pass flag and the names of the failing columns. -/
def checkNullValues (null_threshold : ℚ) (df : QDF) : Bool × List String :=
  let failed := df.cols.filter (fun c => FV.gtb (nullPct df c) (.fin (null_threshold * 100)))
  (failed.isEmpty, failed.map QCol.name)

/-- `check_schema`: required columns present, dtypes match the expected
map, and (in strict mode) no extra columns.  Returns the pass flag,
missing columns, extra columns, and dtype mismatches
`(column, expected, actual)`. -/
def checkSchema (schema_strict : Bool) (df : QDF) :
    Bool × List String × List String × List (String × String × String) :=
  let missing := requiredColumns.filter (fun n => !(df.colNames.contains n))
  let extra := df.colNames.filter (fun n => !((expectedSchema.map Prod.fst).contains n))
  let mismatches := expectedSchema.filterMap (fun p =>
    match df.getCol? p.1 with
    | some c => if c.dtype ≠ p.2 then some (p.1, p.2, c.dtype) else none
    | none => none)
  let passed := missing.isEmpty && mismatches.isEmpty && (!schema_strict || extra.isEmpty)
  (passed, missing, extra, mismatches)

/-- One recorded violation of `check_data_ranges`. -/
inductive RangeViolation where
  | nonpositive (count : ℕ) : RangeViolation
  | outliers (count : ℕ) : RangeViolation
  | badTimestampFmt : RangeViolation
deriving DecidableEq, Repr

/-- `df['close'] <= 0` on one cell (pandas comparison: NaN compares
false; the model covers numeric price cells). -/
def cellLeZero : Cell → Bool
  | .num v => FV.leb v (.fin 0)
  | _ => false

/-- Total boolean order used to sort values for the median
(-inf < finite < inf; NaN values are filtered out before sorting). -/
def fvOrdb : FV → FV → Bool
  | .ninf, _ => true
  | _, .ninf => false
  | .fin a, .fin b => decide (a ≤ b)
  | .fin _, _ => true
  | .inf, .inf => true
  | .inf, _ => false
  | .nan, _ => true

/-- Insertion into a sorted list (used for the median computation). -/
def fvInsert (v : FV) : List FV → List FV
  | [] => [v]
  | x :: xs => if fvOrdb v x then v :: x :: xs else x :: fvInsert v xs

/-- Insertion sort by `fvOrdb`. -/
def fvSort : List FV → List FV
  | [] => []
  | x :: xs => fvInsert x (fvSort xs)

/-- `Series.median()`: drop NaN (and None) cells, sort, take the middle
element (average of the two middles for even counts); NaN for an empty
series, as in pandas. -/
def medianCells (cells : List Cell) : FV :=
  let vals := (cells.filterMap (fun c => match c with | .num v => some v | _ => none)).filter
    (fun v => !v.isNan)
  let s := fvSort vals
  let n := s.length
  if n = 0 then .nan
  else if n % 2 = 1 then (s.get? (n / 2)).getD .nan
  else FV.div (FV.add ((s.get? (n / 2 - 1)).getD .nan) ((s.get? (n / 2)).getD .nan)) (.fin 2)

/-- Is the cell an outlier relative to the median: value above
`median * 5` or below `median / 5` (NaN comparisons are false)? -/
def isOutlierCell (med : FV) : Cell → Bool
  | .num v => FV.gtb v (FV.mul med (.fin 5)) || FV.ltb v (FV.div med (.fin 5))
  | _ => false

/-- Does the timestamp cell fail `pd.to_datetime`? -/
def isBadTime : Cell → Bool
  | .badtime _ => true
  | _ => false

/-- `check_data_ranges`: if a `close` column exists, record a violation
when any price is `<= 0` and a violation when the outlier rows exceed
5% of all rows; if a `timestamp` column exists, record a violation when
it fails to parse (this parse error is caught).  Passes when no
violation was recorded. -/
def checkDataRanges (df : QDF) : Bool × List RangeViolation :=
  let vs1 := match df.getCol? "close" with
    | none => []
    | some c =>
      let negCnt := c.cells.countP cellLeZero
      let v1 := if 0 < negCnt then [RangeViolation.nonpositive negCnt] else []
      let med := medianCells c.cells
      let outCnt := c.cells.countP (isOutlierCell med)
      let v2 := if ((outCnt : ℕ) : ℚ) > ((df.nRows : ℕ) : ℚ) * (5 / 100)
        then [RangeViolation.outliers outCnt] else []
      v1 ++ v2
  let vs2 := match df.getCol? "timestamp" with
    | none => []
    | some c => if c.cells.any isBadTime then [RangeViolation.badTimestampFmt] else []
  let vs := vs1 ++ vs2
  (vs.isEmpty, vs)

/-- `pd.to_datetime` on a single timestamp cell: parseable datetimes and
missing values succeed, unparseable strings raise. A numeric cell is
interpreted as an epoch offset (floor to minutes); infinite floats are
out of bounds and raise. -/
def parseTimeCell : Cell → Except String (Option ℤ)
  | .time t => .ok (some t)
  | .na => .ok none
  | .badtime s => .error s
  | .num .nan => .ok none
  | .num (.fin q) => .ok (some ⌊q⌋)
  | .num _ => .error "out of bounds datetime"

/-- Diagnostics of `check_data_freshness`. -/
inductive FreshRep where
  | noTimestampCol : FreshRep
  | aged (age_hours : FV) (threshold_hours : ℚ) : FreshRep
deriving DecidableEq, Repr

/-- `check_data_freshness`: with no timestamp column the check passes
with a note.  Otherwise the column is parsed with `pd.to_datetime`
(which RAISES on an unparseable string - the call is not wrapped in
try/except in the source), the age in hours of the latest timestamp is
compared with the threshold (the age is NaN when there is no valid
timestamp, and a NaN comparison is false, so the check fails). -/
def checkDataFreshness (df : QDF) (max_age_hours : ℚ) (now : ℤ) :
    Except String (Bool × FreshRep) :=
  match df.getCol? "timestamp" with
  | none => .ok (true, .noTimestampCol)
  | some c => do
    let parsed ← c.cells.mapM parseTimeCell
    let latest := (parsed.filterMap id).foldl
      (fun acc t => match acc with
        | none => some t
        | some a => some (if a ≤ t then t else a)) none
    let ageHours : FV := match latest with
      | none => .nan
      | some t => .fin ((((now - t : ℤ) : ℚ)) / 60)
    .ok (FV.leb ageHours (.fin max_age_hours), .aged ageHours max_age_hours)

/-- The row at index `i`, as the tuple of its cells (used by
`df.duplicated()`). -/
def QDF.rowAt (df : QDF) (i : ℕ) : List (Option Cell) :=
  df.cols.map (fun c => c.cells.get? i)

/-- `df.duplicated().sum()`: the number of rows equal to an earlier row. -/
def duplicatedCount (df : QDF) : ℕ :=
  (List.range df.nRows).countP (fun i => (List.range i).any (fun j => df.rowAt j == df.rowAt i))

/-- `check_duplicates`: the duplicate percentage must not exceed 0.5%
(the percentage is NaN on an empty frame, so the comparison is false
and the check fails, exactly as in pandas). -/
def checkDuplicates (df : QDF) : Bool × ℕ :=
  let dcnt := duplicatedCount df
  let dupPct := FV.mul (FV.div (.fin ((dcnt : ℕ) : ℚ)) (.fin ((df.nRows : ℕ) : ℚ))) (.fin 100)
  (FV.leb dupPct (.fin (1 / 2)), dcnt)

/-- `check_data_volume`: at least `min_rows` rows. -/
def checkDataVolume (df : QDF) (min_rows : ℕ) : Bool × ℕ :=
  (decide (min_rows ≤ df.nRows), df.nRows)

/-- The aggregate report of `run_all_checks` (logging-only fields such as
the wall-clock ISO timestamp are elided). -/
structure QReport where
  overall_passed : Bool
  total_checks : ℕ
  passed_checks : ℕ
  failed_checks : ℕ
  check_flags : List Bool
  rows : ℕ
  columns : ℕ
deriving DecidableEq, Repr

/-- The aggregation of `run_all_checks` once the freshness result is
available: the six per-check flags in source order (volume, nulls,
schema, ranges, duplicates, freshness), the overall flag as their
conjunction, and the passed/failed counts. -/
def runAllChecksWith (cfg : QCConfig) (df : QDF) (fr : Bool × FreshRep) : Bool × QReport :=
  let flags := [(checkDataVolume df 100).1, (checkNullValues cfg.null_threshold df).1,
    (checkSchema cfg.schema_strict df).1, (checkDataRanges df).1, (checkDuplicates df).1, fr.1]
  let allPassed := flags.all id
  (allPassed,
    ⟨allPassed, flags.length, flags.countP id, flags.countP (fun b => !b), flags,
     df.nRows, df.cols.length⟩)

/-- `run_all_checks`: runs the six checks (volume, nulls, schema,
ranges, duplicates, freshness); the freshness check can raise, which
propagates out of `run_all_checks` uncaught. -/
def runAllChecks (cfg : QCConfig) (now : ℤ) (df : QDF) : Except String (Bool × QReport) :=
  (checkDataFreshness df 48 now).map (runAllChecksWith cfg df)

/-!  ## Feature-engineering data model (`transform.py`)

After `load_raw_data` a raw record is a parsed datetime (minutes since
epoch) plus a float price (`pd.to_numeric(..., errors='coerce')` can
yield NaN, hence `FV`). -/

/-- One raw record after `load_raw_data`. -/
structure RRow where
  date : ℤ
  price : FV
deriving DecidableEq, Repr

/-- Irrational primitives of the source, abstracted as rational-valued
functions: `sqrtQ` for `Series.std` (square root of the sample
variance), `sin2pi x`/`cos2pi x` for `np.sin(2*np.pi*x)` /
`np.cos(2*np.pi*x)`, and `dayOfMonthZ` for `Series.dt.day` (calendar
day-of-month extraction).  Theorems quantify over `Ops`, so they hold
for the true primitives under any rounding. -/
structure Ops where
  sqrtQ : ℚ → ℚ
  sin2pi : ℚ → ℚ
  cos2pi : ℚ → ℚ
  dayOfMonthZ : ℤ → ℤ

/-- Square root lifted to float values (`sqrt` of a negative is NaN). -/
def FV.sqrtF (ops : Ops) : FV → FV
  | .nan => .nan
  | .inf => .inf
  | .ninf => .nan
  | .fin q => if q < 0 then .nan else .fin (ops.sqrtQ q)

/-- The value of a column at row `i` (NaN when out of range; all
pipeline columns have the frame's row count, so this default is never
observed in the pipeline). -/
def fvAt (xs : List FV) (i : ℕ) : FV := (xs.get? i).getD .nan

/-- Build a column of length `n` from a per-index formula. -/
def idxMap (n : ℕ) (g : ℕ → FV) : List FV := (List.range n).map g

/-- Build a column where row `i` is computed from the first `i+1` input
values only.  Every causal whole-column operator of the source is an
instance of this scheme. -/
def prefMap (G : List FV → ℕ → FV) (xs : List FV) : List FV :=
  idxMap xs.length (fun i => G (xs.take (i + 1)) i)

/-- `Series.shift(k)` for `k ≥ 0`: NaN for the first `k` rows. -/
def shiftCol (k : ℕ) : List FV → List FV :=
  prefMap (fun pre i => if k ≤ i then fvAt pre (i - k) else .nan)

/-- `Series.shift(-k)`: the value `k` rows ahead; NaN past the series
end (rows whose shifted source falls past the end are undefined). -/
def shiftNegCol (k : ℕ) (xs : List FV) : List FV :=
  idxMap xs.length (fun i => if i + k < xs.length then fvAt xs (i + k) else .nan)

/-- The last non-NaN value of a list (NaN if none): the value forward
fill carries. -/
def lastValid (xs : List FV) : FV :=
  match xs.reverse.find? (fun v => !v.isNan) with
  | some v => v
  | none => .nan

/-- `Series.ffill` / `fillna(method='ffill')`: replace each NaN by the
most recent preceding non-NaN value (leading NaNs stay NaN). -/
def ffillCol : List FV → List FV :=
  prefMap (fun pre i => if (fvAt pre i).isNan then lastValid pre else fvAt pre i)

/-- The non-NaN values of the trailing window of size `w` ending at row
`i` (pandas rolling windows aggregate the non-NaN observations and
count them against `min_periods`). -/
def validWindow (w : ℕ) (pre : List FV) (i : ℕ) : List FV :=
  (pre.drop (i + 1 - w)).filter (fun v => !v.isNan)

/-- `Series.rolling(window=w, min_periods=m).mean()`. -/
def rollingMean (w m : ℕ) : List FV → List FV :=
  prefMap (fun pre i =>
    let vs := validWindow w pre i
    if m ≤ vs.length then FV.div (FV.sumL vs) (.fin ((vs.length : ℕ) : ℚ)) else .nan)

/-- Sample standard deviation (ddof=1) of a list of observations:
`sqrt( sum((x - mean)^2) / (n - 1) )`. -/
def sampleStd (ops : Ops) (vs : List FV) : FV :=
  let m := FV.div (FV.sumL vs) (.fin ((vs.length : ℕ) : ℚ))
  FV.sqrtF ops
    (FV.div (FV.sumL (vs.map (fun v => FV.mul (FV.sub v m) (FV.sub v m))))
      (.fin (((vs.length : ℕ) : ℚ) - 1)))

/-- `Series.rolling(window=w, min_periods=m).std()`. -/
def rollingStd (ops : Ops) (w m : ℕ) : List FV → List FV :=
  prefMap (fun pre i =>
    let vs := validWindow w pre i
    if m ≤ vs.length then sampleStd ops vs else .nan)

/-- `Series.rolling(window=w).max()` (min_periods defaults to `w`). -/
def rollingMax (w : ℕ) : List FV → List FV :=
  prefMap (fun pre i =>
    let vs := validWindow w pre i
    if w ≤ vs.length then
      match vs with
      | [] => .nan
      | h :: t => t.foldl (fun a b => if FV.ltb a b then b else a) h
    else .nan)

/-- `Series.rolling(window=w).min()` (min_periods defaults to `w`). -/
def rollingMin (w : ℕ) : List FV → List FV :=
  prefMap (fun pre i =>
    let vs := validWindow w pre i
    if w ≤ vs.length then
      match vs with
      | [] => .nan
      | h :: t => t.foldl (fun a b => if FV.ltb b a then b else a) h
    else .nan)

/-- One step of the pandas EWM recursion (`adjust=False`,
`ignore_na=False`): the state is `none` before the first valid
observation, then `(old_wt, weighted_avg)`; the old weight decays by
`(1-α)` at every row and resets to 1 after a valid observation. -/
def ewmStep (α : ℚ) (st : Option (ℚ × FV)) (x : FV) : Option (ℚ × FV) :=
  match st with
  | none => if x.isNan then none else some (1, x)
  | some (w, avg) =>
    if x.isNan then some (w * (1 - α), avg)
    else
      let w' := w * (1 - α)
      some (1, FV.div (FV.add (FV.mul (.fin w') avg) (FV.mul (.fin α) x)) (.fin (w' + α)))

/-- The EWM value after consuming a whole prefix (NaN before the first
valid observation; the running average is carried over NaN inputs). -/
def ewmAt (α : ℚ) (xs : List FV) : FV :=
  match xs.foldl (ewmStep α) none with
  | none => .nan
  | some p => p.2

/-- `Series.ewm(span=s, adjust=False).mean()` with `α = 2/(s+1)`. -/
def ewmCol (α : ℚ) : List FV → List FV :=
  prefMap (fun pre _ => ewmAt α pre)

/-- Apply a scalar function elementwise (a vectorized expression). -/
def mapCol (g : FV → FV) : List FV → List FV :=
  prefMap (fun pre i => g (fvAt pre i))

/-- Combine two columns elementwise (a vectorized binary expression). -/
def zip2 (g : FV → FV → FV) (xs ys : List FV) : List FV :=
  idxMap xs.length (fun i => g (fvAt xs i) (fvAt ys i))

/-- `Series.pct_change(k)` with the default pad fill: forward fill,
then `filled / filled.shift(k) - 1`. -/
def pctChangeCol (k : ℕ) (xs : List FV) : List FV :=
  zip2 (fun a b => FV.sub (FV.div a b) (.fin 1)) (ffillCol xs) (shiftCol k (ffillCol xs))

/-- `Series.diff()`: `x[i] - x[i-1]`, NaN at row 0. -/
def diffCol : List FV → List FV :=
  prefMap (fun pre i => if 1 ≤ i then FV.sub (fvAt pre i) (fvAt pre (i - 1)) else .nan)

/-- `delta.where(delta > 0, 0)`: keep positive deltas, else 0 (NaN
compares false, so a NaN delta becomes 0). -/
def posPartCol : List FV → List FV :=
  mapCol (fun v => if FV.gtb v (.fin 0) then v else .fin 0)

/-- `-(delta.where(delta < 0, 0))`. -/
def negPartCol : List FV → List FV :=
  mapCol (fun v => FV.neg (if FV.ltb v (.fin 0) then v else .fin 0))

/-- Rate of change over `k` rows: `(p - p.shift(k)) / p.shift(k)`. -/
def rocCol (k : ℕ) (xs : List FV) : List FV :=
  zip2 (fun a b => FV.div (FV.sub a b) b) xs (shiftCol k xs)

/-- The RSI column: `rs = gain/loss` over 14-row rolling means of the
positive / negated negative deltas, then `100 - 100/(1+rs)`. -/
def rsiCol (xs : List FV) : List FV :=
  mapCol (fun r => FV.sub (.fin 100) (FV.div (.fin 100) (FV.add (.fin 1) r)))
    (zip2 FV.div (rollingMean 14 14 (posPartCol (diffCol xs)))
      (rollingMean 14 14 (negPartCol (diffCol xs))))

/-- `Series.dt.hour` for a minutes-since-epoch datetime. -/
def hourOf (t : ℤ) : ℤ := (t.ediv 60).emod 24

/-- `Series.dt.dayofweek` (Monday = 0; the epoch 1970-01-01 was a
Thursday = 3). -/
def dowOf (t : ℤ) : ℤ := ((t.ediv 1440) + 3).emod 7

/-- `Series.min()` on the date column. -/
def datesMin : List ℤ → ℤ
  | [] => 0
  | h :: t => t.foldl min h

/-- `(df['date'] - df['date'].min()).dt.total_seconds() / 3600`. -/
def hoursElapsedCol (d : List ℤ) : List FV :=
  d.map (fun t => FV.fin (((t - datesMin d : ℤ) : ℚ) / 60))

/-- A feature frame: the date column plus named float columns, in the
order the pipeline creates them (most recently created first). -/
structure Frame where
  dates : List ℤ
  cols : List (String × List FV)
deriving Repr

/-- Read a column by name (an absent column reads as empty; the
pipeline only reads columns it has created). -/
def Frame.get (f : Frame) (name : String) : List FV :=
  match f.cols.find? (fun p => p.1 == name) with
  | some p => p.2
  | none => []

/-- `df[name] = col`. -/
def Frame.add (f : Frame) (name : String) (col : List FV) : Frame :=
  ⟨f.dates, (name, col) :: f.cols⟩

/-- The feature columns created by `create_price_features`,
`create_volatility_features`, `create_momentum_features`,
`create_temporal_features` and `create_lag_features`, in source
assignment order, each as a function of the date and price columns.
Derived columns are expressed by substituting the defining expression
of the columns they read (each source column is assigned exactly once
and never mutated, so this is sound). -/
def featureSpecs (ops : Ops) : List (String × (List ℤ → List FV → List FV)) :=
  [("priceUsd", fun _ p => p),
   ("price_return_5m", fun _ p => pctChangeCol 1 p),
   ("price_return_15m", fun _ p => pctChangeCol 3 p),
   ("price_return_30m", fun _ p => pctChangeCol 6 p),
   ("price_return_1h", fun _ p => pctChangeCol 12 p),
   ("price_return_4h", fun _ p => pctChangeCol 48 p),
   ("price_return_24h", fun _ p => pctChangeCol 288 p),
   ("ma_5", fun _ p => rollingMean 5 1 p),
   ("ma_12", fun _ p => rollingMean 12 1 p),
   ("ma_48", fun _ p => rollingMean 48 1 p),
   ("ma_144", fun _ p => rollingMean 144 1 p),
   ("price_to_ma5", fun _ p => zip2 FV.div p (rollingMean 5 1 p)),
   ("price_to_ma12", fun _ p => zip2 FV.div p (rollingMean 12 1 p)),
   ("price_to_ma48", fun _ p => zip2 FV.div p (rollingMean 48 1 p)),
   ("ema_12", fun _ p => ewmCol (2 / 13) p),
   ("ema_48", fun _ p => ewmCol (2 / 49) p),
   ("macd", fun _ p => zip2 FV.sub (ewmCol (2 / 13) p) (ewmCol (2 / 49) p)),
   ("macd_signal", fun _ p => ewmCol (2 / 10) (zip2 FV.sub (ewmCol (2 / 13) p) (ewmCol (2 / 49) p))),
   ("volatility_5m", fun _ p => rollingStd ops 5 2 p),
   ("volatility_30m", fun _ p => rollingStd ops 30 5 p),
   ("volatility_1h", fun _ p => rollingStd ops 12 5 p),
   ("volatility_4h", fun _ p => rollingStd ops 48 10 p),
   ("cv_1h", fun _ p => zip2 FV.div (rollingStd ops 12 5 p) (rollingMean 12 1 p)),
   ("cv_4h", fun _ p => zip2 FV.div (rollingStd ops 48 10 p) (rollingMean 48 1 p)),
   ("high_5m", fun _ p => rollingMax 5 p),
   ("low_5m", fun _ p => rollingMin 5 p),
   ("hl_range_5m", fun _ p => zip2 (fun h l => FV.div (FV.sub h l) l) (rollingMax 5 p) (rollingMin 5 p)),
   ("high_1h", fun _ p => rollingMax 12 p),
   ("low_1h", fun _ p => rollingMin 12 p),
   ("hl_range_1h", fun _ p => zip2 (fun h l => FV.div (FV.sub h l) l) (rollingMax 12 p) (rollingMin 12 p)),
   ("roc_12", fun _ p => rocCol 12 p),
   ("roc_48", fun _ p => rocCol 48 p),
   ("rsi", fun _ p => rsiCol p),
   ("price_accel", fun _ p => diffCol (pctChangeCol 1 p)),
   ("hour", fun d _ => d.map (fun t => FV.fin ((hourOf t : ℤ) : ℚ))),
   ("day_of_week", fun d _ => d.map (fun t => FV.fin ((dowOf t : ℤ) : ℚ))),
   ("day_of_month", fun d _ => d.map (fun t => FV.fin ((ops.dayOfMonthZ t : ℤ) : ℚ))),
   ("is_weekend", fun d _ => d.map (fun t => FV.fin (if 5 ≤ dowOf t then 1 else 0))),
   ("hour_sin", fun d _ => d.map (fun t => FV.fin (ops.sin2pi (((hourOf t : ℤ) : ℚ) / 24)))),
   ("hour_cos", fun d _ => d.map (fun t => FV.fin (ops.cos2pi (((hourOf t : ℤ) : ℚ) / 24)))),
   ("dow_sin", fun d _ => d.map (fun t => FV.fin (ops.sin2pi (((dowOf t : ℤ) : ℚ) / 7)))),
   ("dow_cos", fun d _ => d.map (fun t => FV.fin (ops.cos2pi (((dowOf t : ℤ) : ℚ) / 7)))),
   ("hours_elapsed", fun d _ => hoursElapsedCol d),
   ("price_lag_1", fun _ p => shiftCol 1 p),
   ("volatility_lag_1", fun _ p => shiftCol 1 (rollingStd ops 12 5 p)),
   ("price_lag_2", fun _ p => shiftCol 2 p),
   ("volatility_lag_2", fun _ p => shiftCol 2 (rollingStd ops 12 5 p)),
   ("price_lag_3", fun _ p => shiftCol 3 p),
   ("volatility_lag_3", fun _ p => shiftCol 3 (rollingStd ops 12 5 p)),
   ("price_lag_6", fun _ p => shiftCol 6 p),
   ("volatility_lag_6", fun _ p => shiftCol 6 (rollingStd ops 12 5 p)),
   ("price_lag_12", fun _ p => shiftCol 12 p),
   ("volatility_lag_12", fun _ p => shiftCol 12 (rollingStd ops 12 5 p))]

/-- The frame after the five feature families (the input is assumed in
timestamp order, as `load_raw_data` sorts before feature creation). -/
def buildFeatures (ops : Ops) (rows : List RRow) : Frame :=
  ⟨rows.map RRow.date,
   (featureSpecs ops).map (fun s => (s.1, s.2 (rows.map RRow.date) (rows.map RRow.price)))⟩

/-- `create_target_variable`: `target_volatility` is `volatility_1h`
shifted back by `horizon * 12` rows, and `target_volatility_norm` is
the target divided by the price. -/
def createTargetVariable (horizon : ℕ) (f : Frame) : Frame :=
  let tgt := shiftNegCol (horizon * 12) (f.get "volatility_1h")
  (f.add "target_volatility" tgt).add "target_volatility_norm"
    (zip2 FV.div tgt (f.get "priceUsd"))

/-- `df.replace([np.inf, -np.inf], np.nan)` on one value. -/
def replaceInfNanV : FV → FV
  | .inf => .nan
  | .ninf => .nan
  | v => v

/-- The first statement of `clean_features`: replace infinities with
NaN in every column. -/
def replaceStep (f : Frame) : Frame :=
  ⟨f.dates, f.cols.map (fun p => (p.1, p.2.map replaceInfNanV))⟩

/-- Keep the entries of `xs` at the positions where `mask` is true. -/
def maskFilter {α : Type} : List α → List Bool → List α
  | [], _ => []
  | _, [] => []
  | x :: xs, b :: ms => if b then x :: maskFilter xs ms else maskFilter xs ms

/-- Keep the rows of a frame selected by a boolean mask. -/
def filterFrame (f : Frame) (mask : List Bool) : Frame :=
  ⟨maskFilter f.dates mask, f.cols.map (fun p => (p.1, maskFilter p.2 mask))⟩

/-- The row mask of `df.dropna(subset=['target_volatility'])`: keep the
rows whose target is not NaN. -/
def targetKeepMask (f : Frame) : List Bool :=
  (f.get "target_volatility").map (fun v => !v.isNan)

/-- `df.dropna(subset=['target_volatility'])`. -/
def dropnaTargetStep (f : Frame) : Frame :=
  filterFrame f (targetKeepMask f)

/-- `df.fillna(method='ffill')`: forward fill every column. -/
def ffillStep (f : Frame) : Frame :=
  ⟨f.dates, f.cols.map (fun p => (p.1, ffillCol p.2))⟩

/-- Does row `i` have no NaN in any column (the date column holds no
NaN)?  This is the keep-condition of the final `df.dropna()`. -/
def rowNoNan (f : Frame) (i : ℕ) : Bool :=
  f.cols.all (fun p => !(fvAt p.2 i).isNan)

/-- The final `df.dropna()`: drop every row still containing a NaN. -/
def dropnaAllStep (f : Frame) : Frame :=
  filterFrame f ((List.range f.dates.length).map (rowNoNan f))

/-- `clean_features`: replace infinities by NaN, drop rows lacking a
target, forward fill, drop remaining NaN rows. -/
def cleanFeatures (f : Frame) : Frame :=
  dropnaAllStep (ffillStep (dropnaTargetStep (replaceStep f)))

/-- Insert a row into a list sorted by date. -/
def insertByDate (r : RRow) : List RRow → List RRow
  | [] => [r]
  | x :: xs => if r.date ≤ x.date then r :: x :: xs else x :: insertByDate r xs

/-- `df.sort_values('date')` (the source quicksort leaves the order of
equal dates unspecified; the model uses insertion sort). -/
def sortRowsByDate : List RRow → List RRow
  | [] => []
  | x :: xs => insertByDate x (sortRowsByDate xs)

/-- The `transform` pipeline up to and including `clean_features`
(`select_features` and the final CSV write only select columns and do
not change the row set). -/
def transformPipeline (ops : Ops) (horizon : ℕ) (rows : List RRow) : Frame :=
  cleanFeatures (createTargetVariable horizon (buildFeatures ops (sortRowsByDate rows)))

/-!  ## Quality-gate theorems -/

/-- Equality on `Except` values is decidable (used to evaluate the
gate on concrete frames). -/
instance {ε α : Type} [DecidableEq ε] [DecidableEq α] : DecidableEq (Except ε α) := fun a b =>
  match a, b with
  | .ok x, .ok y => if h : x = y then .isTrue (by rw [h]) else .isFalse (by simp [h])
  | .error x, .error y => if h : x = y then .isTrue (by rw [h]) else .isFalse (by simp [h])
  | .ok _, .error _ => .isFalse (by simp)
  | .error _, .ok _ => .isFalse (by simp)

/-- Helper: on a six-element boolean list, `all id` is the conjunction. -/
theorem allSixConj : ∀ a b c d e f : Bool,
    [a, b, c, d, e, f].all id = (a && (b && (c && (d && (e && f))))) := by decide

/-- Helper: on a six-element boolean list, the counts of true and of
false entries sum to six. -/
theorem countSix : ∀ a b c d e f : Bool,
    [a, b, c, d, e, f].countP id + [a, b, c, d, e, f].countP (fun x => !x) = 6 := by decide

/-- C1: for every input frame (whenever the gate returns at all, i.e.
the freshness check does not raise), the overall `passed` flag equals
the conjunction of the six per-check flags (volume, nulls, schema,
ranges, duplicates, freshness), the report has `total_checks = 6`,
`passed_checks + failed_checks = total_checks`, and `passed_checks`
counts exactly the true flags. -/
theorem c1_overall_and_counts (cfg : QCConfig) (now : ℤ) (df : QDF) (bf : Bool)
    (frep : FreshRep) (hfr : checkDataFreshness df 48 now = .ok (bf, frep)) :
    ∃ rep : QReport,
      runAllChecks cfg now df = .ok (((checkDataVolume df 100).1 &&
          ((checkNullValues cfg.null_threshold df).1 && ((checkSchema cfg.schema_strict df).1 &&
          ((checkDataRanges df).1 && ((checkDuplicates df).1 && bf))))), rep) ∧
      rep.total_checks = 6 ∧
      rep.passed_checks + rep.failed_checks = rep.total_checks ∧
      rep.passed_checks = [(checkDataVolume df 100).1, (checkNullValues cfg.null_threshold df).1,
        (checkSchema cfg.schema_strict df).1, (checkDataRanges df).1,
        (checkDuplicates df).1, bf].countP id := by
  have hrun : runAllChecks cfg now df = .ok (runAllChecksWith cfg df (bf, frep)) := by
    simp [runAllChecks, hfr, Except.map]
  refine ⟨(runAllChecksWith cfg df (bf, frep)).2, ?_, ?_, ?_, ?_⟩
  · rw [hrun]
    have h1 : (runAllChecksWith cfg df (bf, frep)).1 =
        [(checkDataVolume df 100).1, (checkNullValues cfg.null_threshold df).1,
         (checkSchema cfg.schema_strict df).1, (checkDataRanges df).1,
         (checkDuplicates df).1, bf].all id := rfl
    rw [show runAllChecksWith cfg df (bf, frep) =
      ((runAllChecksWith cfg df (bf, frep)).1, (runAllChecksWith cfg df (bf, frep)).2) from rfl,
      h1, allSixConj]
  · rfl
  · exact countSix _ _ _ _ _ _
  · rfl

/-- Witness data: a well-formed `n`-row frame with the six expected
columns, distinct in-range timestamps at 5-minute spacing and constant
prices. -/
def mkQDF (n : ℕ) : QDF :=
  ⟨[⟨"timestamp", "object", (List.range n).map (fun (i : ℕ) => Cell.time (5 * (i : ℤ)))⟩,
    ⟨"open", "float64", (List.range n).map (fun _ => Cell.num (.fin 100))⟩,
    ⟨"high", "float64", (List.range n).map (fun _ => Cell.num (.fin 101))⟩,
    ⟨"low", "float64", (List.range n).map (fun _ => Cell.num (.fin 99))⟩,
    ⟨"close", "float64", (List.range n).map (fun _ => Cell.num (.fin 100))⟩,
    ⟨"volume", "float64", (List.range n).map (fun _ => Cell.num (.fin 7))⟩]⟩

/-- Witness for C1 at a concrete 150-row frame. -/
theorem c1_overall_and_counts_witness :
    checkDataFreshness (mkQDF 150) 48 (5 * 149) = .ok (true, .aged (.fin 0) 48) ∧
    ∃ rep : QReport,
      runAllChecks ⟨1 / 100, true⟩ (5 * 149) (mkQDF 150) =
        .ok (((checkDataVolume (mkQDF 150) 100).1 &&
          ((checkNullValues (1 / 100) (mkQDF 150)).1 && ((checkSchema true (mkQDF 150)).1 &&
          ((checkDataRanges (mkQDF 150)).1 && ((checkDuplicates (mkQDF 150)).1 && true))))),
          rep) ∧
      rep.total_checks = 6 ∧
      rep.passed_checks + rep.failed_checks = rep.total_checks ∧
      rep.passed_checks = [(checkDataVolume (mkQDF 150) 100).1,
        (checkNullValues (1 / 100) (mkQDF 150)).1, (checkSchema true (mkQDF 150)).1,
        (checkDataRanges (mkQDF 150)).1, (checkDuplicates (mkQDF 150)).1, true].countP id :=
  ⟨by with_unfolding_all decide, c1_overall_and_counts ⟨1 / 100, true⟩ (5 * 149) (mkQDF 150) true
    (.aged (.fin 0) 48) (by with_unfolding_all decide)⟩

/-- Helper: IEEE `>` against a finite bound is antitone in the bound. -/
theorem FV.gtb_fin_mono {v : FV} {a b : ℚ} (hab : a ≤ b)
    (h : FV.gtb v (.fin b) = true) : FV.gtb v (.fin a) = true := by
  cases v with
  | nan => simp [FV.gtb, FV.ltb] at h
  | inf => simp [FV.gtb, FV.ltb]
  | ninf => simp [FV.gtb, FV.ltb] at h
  | fin q =>
    simp only [FV.gtb, FV.ltb, decide_eq_true_eq] at h ⊢
    exact lt_of_le_of_lt hab h

/-- C5: the null check is monotone in its threshold: on fixed data, if
it passes at threshold `t₁` it passes at any larger threshold `t₂`. -/
theorem c5_null_threshold_monotone (df : QDF) (t₁ t₂ : ℚ) (hle : t₁ ≤ t₂)
    (h : (checkNullValues t₁ df).1 = true) : (checkNullValues t₂ df).1 = true := by
  have key : ∀ t : ℚ, (checkNullValues t df).1 =
      (df.cols.filter (fun c => FV.gtb (nullPct df c) (.fin (t * 100)))).isEmpty :=
    fun _ => rfl
  rw [key] at h ⊢
  rw [List.isEmpty_iff, List.filter_eq_nil_iff] at h ⊢
  intro c hc hgt
  exact h c hc (FV.gtb_fin_mono (by nlinarith) hgt)

/-- Witness for C5: a concrete frame with one null among 20 close
values passes at threshold 6% and hence at 10%. -/
def nullishQDF : QDF :=
  ⟨[⟨"close", "float64",
     Cell.num .nan :: (List.range 19).map (fun _ => Cell.num (.fin 100))⟩]⟩

theorem c5_null_threshold_monotone_witness :
    (6 / 100 : ℚ) ≤ 10 / 100 ∧ (checkNullValues (6 / 100) nullishQDF).1 = true ∧
      (checkNullValues (10 / 100) nullishQDF).1 = true :=
  ⟨by norm_num, by with_unfolding_all decide,
   c5_null_threshold_monotone nullishQDF (6 / 100) (10 / 100) (by norm_num)
     (by with_unfolding_all decide)⟩

/-- C10: a frame with no `timestamp` column passes the freshness check
vacuously (no exception is raised), so in any gate run on such a frame
the sixth (freshness) flag of the report is true and freshness is never
the cause of an overall failure. -/
theorem c10_freshness_no_timestamp (df : QDF) (maxAge : ℚ) (now : ℤ)
    (h : df.colNames.contains "timestamp" = false) :
    checkDataFreshness df maxAge now = .ok (true, .noTimestampCol) ∧
      ∀ cfg p rep, runAllChecks cfg now df = .ok (p, rep) →
        rep.check_flags.get? 5 = some true := by
  have hnone : df.getCol? "timestamp" = none := by
    rw [QDF.getCol?, List.find?_eq_none]
    intro c hc hbeq
    have hcname : c.name = "timestamp" := eq_of_beq hbeq
    have hT : df.colNames.contains "timestamp" = true := by
      simp only [List.contains_iff_exists_mem_beq]
      exact ⟨c.name, List.mem_map_of_mem QCol.name hc, by simp [hcname]⟩
    rw [h] at hT
    exact Bool.false_ne_true hT
  have h1 : checkDataFreshness df maxAge now = .ok (true, .noTimestampCol) := by
    rw [checkDataFreshness, hnone]
  refine ⟨h1, ?_⟩
  intro cfg p rep hrep
  have h48 : checkDataFreshness df 48 now = .ok (true, .noTimestampCol) := by
    rw [checkDataFreshness, hnone]
  have hrun : runAllChecks cfg now df = .ok (runAllChecksWith cfg df (true, .noTimestampCol)) := by
    simp [runAllChecks, h48, Except.map]
  rw [hrun] at hrep
  have hpair : runAllChecksWith cfg df (true, .noTimestampCol) = (p, rep) := by
    exact Except.ok.inj hrep
  have : rep = (runAllChecksWith cfg df (true, .noTimestampCol)).2 := by rw [hpair]
  rw [this]
  rfl

/-- Witness for C10 at a concrete frame lacking a timestamp column. -/
theorem c10_freshness_no_timestamp_witness :
    (QDF.mk [⟨"close", "float64", [Cell.num (.fin 3)]⟩]).colNames.contains "timestamp" = false ∧
      checkDataFreshness (QDF.mk [⟨"close", "float64", [Cell.num (.fin 3)]⟩]) 48 0 =
        .ok (true, .noTimestampCol) :=
  ⟨by decide,
   (c10_freshness_no_timestamp (QDF.mk [⟨"close", "float64", [Cell.num (.fin 3)]⟩]) 48 0
     (by decide)).1⟩

/-- The concrete frame whose unparseable timestamp makes the gate
raise: a single row with a timestamp string `pd.to_datetime` rejects
and otherwise well-formed columns. -/
def badTimeQDF : QDF :=
  ⟨[⟨"timestamp", "object", [Cell.badtime "not-a-date"]⟩,
    ⟨"open", "float64", [Cell.num (.fin 100)]⟩,
    ⟨"high", "float64", [Cell.num (.fin 101)]⟩,
    ⟨"low", "float64", [Cell.num (.fin 99)]⟩,
    ⟨"close", "float64", [Cell.num (.fin 100)]⟩,
    ⟨"volume", "float64", [Cell.num (.fin 7)]⟩]⟩

/-- C7 (code bug): on a frame whose timestamp column fails to parse,
`run_all_checks` does not return a report: the uncaught
`pd.to_datetime` call inside `check_data_freshness` raises and the
exception propagates out of the gate (while `check_data_ranges` catches
the very same parse error and records it as a violation). -/
theorem c7_freshness_raises :
    runAllChecks ⟨1 / 100, true⟩ 0 badTimeQDF = .error "not-a-date" ∧
      (checkDataRanges badTimeQDF).1 = false := by
  constructor
  · with_unfolding_all decide
  · with_unfolding_all decide

/-- C4: with `min_rows = 100`, a 50-row frame that passes the null,
schema, range, duplicate and freshness checks fails the volume check
alone (overall `passed` false, `failed_checks = 1`, `passed_checks =
5`), while a 150-row frame passing those same five checks also passes
the volume check, and the `passed_checks` counts differ by exactly 1. -/
theorem c4_volume_gate (cfg : QCConfig) (now : ℤ) (df₁ df₂ : QDF)
    (frep₁ frep₂ : FreshRep)
    (h1n : df₁.nRows = 50) (h2n : df₂.nRows = 150)
    (h1nu : (checkNullValues cfg.null_threshold df₁).1 = true)
    (h1sc : (checkSchema cfg.schema_strict df₁).1 = true)
    (h1ra : (checkDataRanges df₁).1 = true)
    (h1du : (checkDuplicates df₁).1 = true)
    (h1fr : checkDataFreshness df₁ 48 now = .ok (true, frep₁))
    (h2nu : (checkNullValues cfg.null_threshold df₂).1 = true)
    (h2sc : (checkSchema cfg.schema_strict df₂).1 = true)
    (h2ra : (checkDataRanges df₂).1 = true)
    (h2du : (checkDuplicates df₂).1 = true)
    (h2fr : checkDataFreshness df₂ 48 now = .ok (true, frep₂)) :
    ∃ rep₁ rep₂ : QReport,
      runAllChecks cfg now df₁ = .ok (false, rep₁) ∧
      rep₁.failed_checks = 1 ∧ rep₁.passed_checks = 5 ∧
      (checkDataVolume df₁ 100).1 = false ∧
      runAllChecks cfg now df₂ = .ok (true, rep₂) ∧
      (checkDataVolume df₂ 100).1 = true ∧
      rep₂.passed_checks = rep₁.passed_checks + 1 := by
  have hv1 : (checkDataVolume df₁ 100).1 = false := by
    simp [checkDataVolume, h1n]
  have hv2 : (checkDataVolume df₂ 100).1 = true := by
    simp [checkDataVolume, h2n]
  have hr1 : runAllChecks cfg now df₁ = .ok (runAllChecksWith cfg df₁ (true, frep₁)) := by
    simp [runAllChecks, h1fr, Except.map]
  have hr2 : runAllChecks cfg now df₂ = .ok (runAllChecksWith cfg df₂ (true, frep₂)) := by
    simp [runAllChecks, h2fr, Except.map]
  have hw1 : runAllChecksWith cfg df₁ (true, frep₁) =
      (false, ⟨false, 6, 5, 1, [false, true, true, true, true, true],
        df₁.nRows, df₁.cols.length⟩) := by
    rw [runAllChecksWith]
    rw [hv1, h1nu, h1sc, h1ra, h1du]
    rfl
  have hw2 : runAllChecksWith cfg df₂ (true, frep₂) =
      (true, ⟨true, 6, 6, 0, [true, true, true, true, true, true],
        df₂.nRows, df₂.cols.length⟩) := by
    rw [runAllChecksWith]
    rw [hv2, h2nu, h2sc, h2ra, h2du]
    rfl
  refine ⟨⟨false, 6, 5, 1, [false, true, true, true, true, true], df₁.nRows, df₁.cols.length⟩,
    ⟨true, 6, 6, 0, [true, true, true, true, true, true], df₂.nRows, df₂.cols.length⟩,
    ?_, rfl, rfl, hv1, ?_, hv2, rfl⟩
  · rw [hr1, hw1]
  · rw [hr2, hw2]

/-- Witness for C4 at concrete 50-row and 150-row frames. -/
theorem c4_volume_gate_witness :
    ∃ rep₁ rep₂ : QReport,
      runAllChecks ⟨1 / 100, true⟩ (5 * 149) (mkQDF 50) = .ok (false, rep₁) ∧
      rep₁.failed_checks = 1 ∧ rep₁.passed_checks = 5 ∧
      (checkDataVolume (mkQDF 50) 100).1 = false ∧
      runAllChecks ⟨1 / 100, true⟩ (5 * 149) (mkQDF 150) = .ok (true, rep₂) ∧
      (checkDataVolume (mkQDF 150) 100).1 = true ∧
      rep₂.passed_checks = rep₁.passed_checks + 1 :=
  c4_volume_gate ⟨1 / 100, true⟩ (5 * 149) (mkQDF 50) (mkQDF 150)
    (.aged (.fin (25 / 3)) 48) (.aged (.fin 0) 48)
    (by with_unfolding_all decide) (by with_unfolding_all decide)
    (by with_unfolding_all decide) (by with_unfolding_all decide)
    (by with_unfolding_all decide) (by with_unfolding_all decide)
    (by with_unfolding_all decide) (by with_unfolding_all decide)
    (by with_unfolding_all decide) (by with_unfolding_all decide)
    (by with_unfolding_all decide) (by with_unfolding_all decide)

/-- C6: the range check fails exactly when a numeric close value is not
strictly positive (by the pandas comparison `close <= 0`, which is
false on NaN), or the rows whose close lies above five times /
below one fifth of the series median number strictly more than 5% of
all rows, or the timestamp column contains an unparseable entry; in
particular outliers at or below the 5% fraction do not fail the check. -/
theorem c6_range_check_iff (df : QDF) :
    (checkDataRanges df).1 = true ↔
      ¬ ((∃ c, df.getCol? "close" = some c ∧ ∃ cell ∈ c.cells, cellLeZero cell = true) ∨
         (∃ c, df.getCol? "close" = some c ∧
           ((c.cells.countP (isOutlierCell (medianCells c.cells)) : ℕ) : ℚ) >
             ((df.nRows : ℕ) : ℚ) * (5 / 100)) ∨
         (∃ c, df.getCol? "timestamp" = some c ∧ c.cells.any isBadTime = true)) := by
  rcases hclose : df.getCol? "close" with _ | c <;>
    rcases hts : df.getCol? "timestamp" with _ | tc <;>
      simp [checkDataRanges, hclose, hts, List.isEmpty_iff, List.append_eq_nil,
        not_or, List.countP_pos_iff, apply_ite (fun l : List RangeViolation => l = []),
        imp_false, not_lt]

/-!  ## Basic column-combinator lemmas -/

/-- Length of an index-built column. -/
theorem idxMap_length (n : ℕ) (g : ℕ → FV) : (idxMap n g).length = n := by
  simp [idxMap]

/-- Entry of an index-built column. -/
theorem idxMap_get? (n : ℕ) (g : ℕ → FV) (i : ℕ) :
    (idxMap n g).get? i = if i < n then some (g i) else none := by
  by_cases h : i < n
  · rw [idxMap, List.get?_eq_getElem?, List.getElem?_map, List.getElem?_range h]
    simp [h]
  · rw [List.get?_eq_none.mpr (by simp [idxMap_length]; omega)]
    simp [h]

/-- Length of a causal column. -/
theorem prefMap_length (G : List FV → ℕ → FV) (xs : List FV) :
    (prefMap G xs).length = xs.length := by
  simp [prefMap, idxMap_length]

/-- Entry of a causal column. -/
theorem prefMap_get? (G : List FV → ℕ → FV) (xs : List FV) (i : ℕ) :
    (prefMap G xs).get? i =
      if i < xs.length then some (G (xs.take (i + 1)) i) else none := by
  rw [prefMap, idxMap_get?]

/-- Length of an elementwise combination. -/
theorem zip2_length (g : FV → FV → FV) (xs ys : List FV) :
    (zip2 g xs ys).length = xs.length := by
  simp [zip2, idxMap_length]

/-- Entry of an elementwise combination. -/
theorem zip2_get? (g : FV → FV → FV) (xs ys : List FV) (i : ℕ) :
    (zip2 g xs ys).get? i =
      if i < xs.length then some (g (fvAt xs i) (fvAt ys i)) else none := by
  rw [zip2, idxMap_get?]

/-- Length of a backward shift. -/
theorem shiftNegCol_length (k : ℕ) (xs : List FV) :
    (shiftNegCol k xs).length = xs.length := by
  simp [shiftNegCol, idxMap_length]

/-- Entry of a backward shift. -/
theorem shiftNegCol_get? (k : ℕ) (xs : List FV) (i : ℕ) :
    (shiftNegCol k xs).get? i =
      if i < xs.length then
        some (if i + k < xs.length then fvAt xs (i + k) else .nan)
      else none := by
  rw [shiftNegCol, idxMap_get?]

/-- `find?` over an assoc list whose values were rewritten in place. -/
theorem find?_map_keyval (g : List FV → List FV) (cols : List (String × List FV))
    (name : String) :
    (cols.map (fun p => (p.1, g p.2))).find? (fun p => p.1 == name) =
      (cols.find? (fun p => p.1 == name)).map (fun p => (p.1, g p.2)) := by
  induction cols with
  | nil => rfl
  | cons p t ih =>
    by_cases h : (p.1 == name) = true
    · simp only [List.map_cons, List.find?_cons, h]
      rfl
    · have hb : (p.1 == name) = false := by simpa using h
      simp only [List.map_cons, List.find?_cons, hb]
      exact ih

/-- Reading any column of `replaceStep` is reading the original column
with infinities replaced. -/
theorem get_replaceStep (f : Frame) (name : String) :
    (replaceStep f).get name = (f.get name).map replaceInfNanV := by
  rw [Frame.get, Frame.get, replaceStep]
  simp only []
  rw [find?_map_keyval]
  cases hfind : f.cols.find? (fun p => p.1 == name) with
  | none => rfl
  | some q => rfl

/-- Reading any column of `ffillStep` is reading the original column
forward filled. -/
theorem get_ffillStep (f : Frame) (name : String) :
    (ffillStep f).get name = ffillCol (f.get name) := by
  rw [Frame.get, Frame.get, ffillStep]
  simp only []
  rw [find?_map_keyval]
  cases hfind : f.cols.find? (fun p => p.1 == name) with
  | none => rfl
  | some q => rfl

/-- Reading the volatility feature of the built frame. -/
theorem get_volatility_1h (ops : Ops) (rows : List RRow) :
    (buildFeatures ops rows).get "volatility_1h" =
      rollingStd ops 12 5 (rows.map RRow.price) := rfl

/-- Reading the price column of the built frame. -/
theorem get_priceUsd (ops : Ops) (rows : List RRow) :
    (buildFeatures ops rows).get "priceUsd" = rows.map RRow.price := rfl

/-- Reading the target column: the backward shift of `volatility_1h`. -/
theorem get_target (horizon : ℕ) (f : Frame) :
    (createTargetVariable horizon f).get "target_volatility" =
      shiftNegCol (horizon * 12) (f.get "volatility_1h") := rfl

/-- Reading the normalized target column. -/
theorem get_target_norm (horizon : ℕ) (f : Frame) :
    (createTargetVariable horizon f).get "target_volatility_norm" =
      zip2 FV.div (shiftNegCol (horizon * 12) (f.get "volatility_1h")) (f.get "priceUsd") := rfl

/-- C3: with prediction horizon 1 (a 12-row shift), the label at row
`i` is exactly the `volatility_1h` value at row `i+12` whenever that
value exists (in particular whenever it is defined, i.e. not NaN); a
row whose shifted source falls past the series end gets a NaN label and
is marked for exclusion by the `dropna(subset=['target_volatility'])`
mask inside `clean_features` (no value is extrapolated); and the
normalized label at row `i` is the label at row `i` divided by the
price at row `i`. -/
theorem c3_target_shift (ops : Ops) (rows : List RRow) :
    (∀ i v, i + 12 < rows.length →
        ((buildFeatures ops rows).get "volatility_1h").get? (i + 12) = some v →
        v.isNan = false →
        ((createTargetVariable 1 (buildFeatures ops rows)).get "target_volatility").get? i =
          some v) ∧
    (∀ i, i < rows.length → ¬ i + 12 < rows.length →
        ((createTargetVariable 1 (buildFeatures ops rows)).get "target_volatility").get? i =
          some .nan ∧
        (targetKeepMask (replaceStep (createTargetVariable 1 (buildFeatures ops rows)))).get? i
          = some false) ∧
    (∀ i, i < rows.length →
        ((createTargetVariable 1 (buildFeatures ops rows)).get "target_volatility_norm").get? i
          = some (FV.div
            (fvAt ((createTargetVariable 1 (buildFeatures ops rows)).get "target_volatility") i)
            (fvAt ((buildFeatures ops rows).get "priceUsd") i))) := by
  have hlen : ((buildFeatures ops rows).get "volatility_1h").length = rows.length := by
    rw [get_volatility_1h, rollingStd, prefMap_length, List.length_map]
  have htgt : (createTargetVariable 1 (buildFeatures ops rows)).get "target_volatility" =
      shiftNegCol 12 ((buildFeatures ops rows).get "volatility_1h") := get_target 1 _
  refine ⟨?_, ?_, ?_⟩
  · intro i v h12 hv _hnan
    rw [htgt, shiftNegCol_get?, if_pos (by rw [hlen]; omega), if_pos (by rw [hlen]; omega)]
    rw [fvAt, hv]
    rfl
  · intro i hi hni
    constructor
    · rw [htgt, shiftNegCol_get?, if_pos (by rw [hlen]; omega),
        if_neg (by rw [hlen]; omega)]
    · rw [targetKeepMask, get_replaceStep, List.get?_eq_getElem?, List.getElem?_map,
        List.getElem?_map, ← List.get?_eq_getElem?, htgt, shiftNegCol_get?,
        if_pos (by rw [hlen]; omega), if_neg (by rw [hlen]; omega)]
      rfl
  · intro i hi
    rw [get_target_norm, zip2_get?,
      if_pos (by rw [show (1 : ℕ) * 12 = 12 from rfl, shiftNegCol_length, hlen]; omega), htgt]

/-- Concrete primitive functions (one admissible rounding) used to
instantiate `Ops` in witnesses. -/
def ops0 : Ops := ⟨fun _ => 0, fun _ => 0, fun _ => 0, fun _ => 0⟩

/-- A 30-row raw series at 5-minute spacing with distinct prices. -/
def rows30 : List RRow :=
  (List.range 30).map (fun (i : ℕ) => ⟨5 * (i : ℤ), .fin (100 + (i : ℚ))⟩)

/-- Witness for C3 at the concrete 30-row series. -/
theorem c3_target_shift_witness :
    ((buildFeatures ops0 rows30).get "volatility_1h").get? 12 = some (.fin 0) ∧
    ((createTargetVariable 1 (buildFeatures ops0 rows30)).get "target_volatility").get? 0 =
      some (.fin 0) ∧
    ((createTargetVariable 1 (buildFeatures ops0 rows30)).get "target_volatility").get? 29 =
      some .nan ∧
    (targetKeepMask (replaceStep (createTargetVariable 1 (buildFeatures ops0 rows30)))).get? 29
      = some false ∧
    ((createTargetVariable 1 (buildFeatures ops0 rows30)).get "target_volatility_norm").get? 0
      = some (FV.div
        (fvAt ((createTargetVariable 1 (buildFeatures ops0 rows30)).get "target_volatility") 0)
        (fvAt ((buildFeatures ops0 rows30).get "priceUsd") 0)) := by
  refine ⟨by with_unfolding_all decide, ?_, ?_, ?_, ?_⟩
  · exact (c3_target_shift ops0 rows30).1 0 (.fin 0) (by with_unfolding_all decide)
      (by with_unfolding_all decide) (by decide)
  · exact ((c3_target_shift ops0 rows30).2.1 29 (by with_unfolding_all decide)
      (by with_unfolding_all decide)).1
  · exact ((c3_target_shift ops0 rows30).2.1 29 (by with_unfolding_all decide)
      (by with_unfolding_all decide)).2
  · exact (c3_target_shift ops0 rows30).2.2 0 (by with_unfolding_all decide)

/-- The replace step never leaves an infinity. -/
theorem replaceInfNanV_not_inf (v : FV) : (replaceInfNanV v).isInf = false := by
  cases v <;> rfl

/-- Dividing anything by a finite zero yields NaN or an infinity, so
after the replace step it is exactly the NaN sentinel. -/
theorem replace_div_zero (v : FV) : replaceInfNanV (FV.div v (.fin 0)) = .nan := by
  rcases v with _ | _ | _ | q
  · rfl
  · simp [FV.div, replaceInfNanV]
  · simp [FV.div, replaceInfNanV]
  · rw [FV.div]
    simp only [if_pos rfl]
    split_ifs <;> rfl

/-- An index with an entry is in range. -/
theorem lt_length_of_get?_some {α : Type} {l : List α} {i : ℕ} {a : α}
    (h : l.get? i = some a) : i < l.length := by
  by_contra hle
  rw [List.get?_eq_none.mpr (by omega)] at h
  exact Option.noConfusion h

/-- `fvAt` of a present entry. -/
theorem fvAt_of_get? {l : List FV} {i : ℕ} {a : FV} (h : l.get? i = some a) :
    fvAt l i = a := by
  rw [fvAt, h]
  rfl

/-- An elementwise combination whose second operand is a finite zero at
row `i` carries the NaN sentinel at row `i` after the replace step. -/
theorem replace_zip2_den (g : FV → FV → FV)
    (hg : ∀ a, replaceInfNanV (g a (.fin 0)) = .nan)
    (xs ys : List FV) (i : ℕ) (hx : i < xs.length) (hy : ys.get? i = some (.fin 0)) :
    ((zip2 g xs ys).map replaceInfNanV).get? i = some .nan := by
  rw [List.get?_eq_getElem?, List.getElem?_map, ← List.get?_eq_getElem?, zip2_get?,
    if_pos hx, fvAt_of_get? hy]
  simp [hg]

/-- Filtering the empty list gives the empty list. -/
theorem maskFilter_nil {α : Type} (mask : List Bool) :
    maskFilter ([] : List α) mask = [] := by
  cases mask <;> rfl

/-- Reading any column of a row-filtered frame. -/
theorem get_filterFrame (f : Frame) (mask : List Bool) (name : String) :
    (filterFrame f mask).get name = maskFilter (f.get name) mask := by
  rw [Frame.get, Frame.get, filterFrame]
  simp only []
  rw [find?_map_keyval (fun l => maskFilter l mask)]
  cases hfind : f.cols.find? (fun p => p.1 == name) with
  | none => exact (maskFilter_nil mask).symm
  | some q => rfl

/-- Row filtering only keeps existing entries. -/
theorem mem_maskFilter {α : Type} {v : α} {xs : List α} {mask : List Bool}
    (h : v ∈ maskFilter xs mask) : v ∈ xs := by
  induction xs generalizing mask with
  | nil => simp [maskFilter] at h
  | cons x xt ih =>
    cases mask with
    | nil => simp [maskFilter] at h
    | cons b mt =>
      rw [maskFilter] at h
      cases b
      · exact List.mem_cons_of_mem _ (ih (by simpa using h))
      · rcases List.mem_cons.mp (by simpa using h) with h0 | h0
        · exact h0 ▸ List.mem_cons_self _ _
        · exact List.mem_cons_of_mem _ (ih h0)

/-- Forward fill only copies existing entries (or leaves NaN). -/
theorem mem_ffillCol {v : FV} {xs : List FV} (h : v ∈ ffillCol xs) :
    v ∈ xs ∨ v = .nan := by
  rw [ffillCol, prefMap, idxMap] at h
  obtain ⟨i, _hi, hv⟩ := List.mem_map.mp h
  by_cases hnan : (fvAt (xs.take (i + 1)) i).isNan = true
  · rw [if_pos hnan] at hv
    rw [lastValid] at hv
    cases hfind : (xs.take (i + 1)).reverse.find? (fun v => !v.isNan) with
    | none =>
      rw [hfind] at hv
      exact Or.inr hv.symm
    | some w =>
      rw [hfind] at hv
      have hwv : w = v := hv
      have hw : w ∈ (xs.take (i + 1)).reverse := List.mem_of_find?_eq_some hfind
      rw [List.mem_reverse] at hw
      exact Or.inl (List.take_subset _ _ (hwv ▸ hw))
  · rw [if_neg hnan] at hv
    rw [fvAt] at hv
    cases hget : (xs.take (i + 1)).get? i with
    | none =>
      rw [hget] at hv
      exact Or.inr hv.symm
    | some w =>
      rw [hget] at hv
      have hwv : w = v := hv
      have hw : w ∈ xs.take (i + 1) := List.get?_mem hget
      exact Or.inl (List.take_subset _ _ (hwv ▸ hw))

/-- C8: zero denominators in the ratio features never reach the
assembled output as infinities and never fault: (a) every column of the
`clean_features` output is free of infinities (the replace step turns
the infinity produced by a zero division into the NaN sentinel, and the
later fill/drop steps only copy or drop values); (b)-(f) whenever the
denominator column of a ratio feature (moving average for the
price-to-MA ratio, moving average for the coefficient of variation,
rolling low for the high-low range ratio, shifted price for the rate of
change, price for the normalized label) is exactly zero at row `i`, the
frame entering the missing-value policy carries the NaN sentinel for
that feature at row `i`. -/
theorem c8_zero_denominator_sentinel (ops : Ops) (horizon : ℕ) (rows : List RRow) :
    (∀ name, (((cleanFeatures (createTargetVariable horizon (buildFeatures ops rows))).get
        name).all (fun v => !v.isInf)) = true) ∧
    (∀ i, ((buildFeatures ops rows).get "ma_5").get? i = some (.fin 0) →
      ((replaceStep (createTargetVariable horizon (buildFeatures ops rows))).get
        "price_to_ma5").get? i = some .nan) ∧
    (∀ i, ((buildFeatures ops rows).get "ma_12").get? i = some (.fin 0) →
      ((replaceStep (createTargetVariable horizon (buildFeatures ops rows))).get
        "cv_1h").get? i = some .nan) ∧
    (∀ i, ((buildFeatures ops rows).get "low_5m").get? i = some (.fin 0) →
      ((replaceStep (createTargetVariable horizon (buildFeatures ops rows))).get
        "hl_range_5m").get? i = some .nan) ∧
    (∀ i, (shiftCol 12 ((buildFeatures ops rows).get "priceUsd")).get? i = some (.fin 0) →
      ((replaceStep (createTargetVariable horizon (buildFeatures ops rows))).get
        "roc_12").get? i = some .nan) ∧
    (∀ i, ((buildFeatures ops rows).get "priceUsd").get? i = some (.fin 0) →
      ((replaceStep (createTargetVariable horizon (buildFeatures ops rows))).get
        "target_volatility_norm").get? i = some .nan) := by
  refine ⟨?_, ?_, ?_, ?_, ?_, ?_⟩
  · intro name
    rw [List.all_eq_true]
    intro v hv
    rw [cleanFeatures, dropnaAllStep, get_filterFrame, get_ffillStep, dropnaTargetStep,
      get_filterFrame, get_replaceStep] at hv
    rcases mem_ffillCol (mem_maskFilter hv) with h2 | h2
    · obtain ⟨w, _, hw⟩ := List.mem_map.mp (mem_maskFilter h2)
      rw [← hw, Bool.not_eq_true', replaceInfNanV_not_inf]
    · rw [h2]
      rfl
  · intro i h
    have hx : i < (rows.map RRow.price).length := by
      have h' := lt_length_of_get?_some h
      rwa [show (buildFeatures ops rows).get "ma_5" =
        rollingMean 5 1 (rows.map RRow.price) from rfl, rollingMean, prefMap_length] at h'
    rw [get_replaceStep, show (createTargetVariable horizon (buildFeatures ops rows)).get
      "price_to_ma5" = zip2 FV.div (rows.map RRow.price)
        (rollingMean 5 1 (rows.map RRow.price)) from rfl]
    exact replace_zip2_den _ replace_div_zero _ _ i hx h
  · intro i h
    have hx : i < (rollingStd ops 12 5 (rows.map RRow.price)).length := by
      have h' := lt_length_of_get?_some h
      rw [show (buildFeatures ops rows).get "ma_12" =
        rollingMean 12 1 (rows.map RRow.price) from rfl, rollingMean, prefMap_length] at h'
      rwa [rollingStd, prefMap_length]
    rw [get_replaceStep, show (createTargetVariable horizon (buildFeatures ops rows)).get
      "cv_1h" = zip2 FV.div (rollingStd ops 12 5 (rows.map RRow.price))
        (rollingMean 12 1 (rows.map RRow.price)) from rfl]
    exact replace_zip2_den _ replace_div_zero _ _ i hx h
  · intro i h
    have hx : i < (rollingMax 5 (rows.map RRow.price)).length := by
      have h' := lt_length_of_get?_some h
      rw [show (buildFeatures ops rows).get "low_5m" =
        rollingMin 5 (rows.map RRow.price) from rfl, rollingMin, prefMap_length] at h'
      rwa [rollingMax, prefMap_length]
    rw [get_replaceStep, show (createTargetVariable horizon (buildFeatures ops rows)).get
      "hl_range_5m" = zip2 (fun h l => FV.div (FV.sub h l) l)
        (rollingMax 5 (rows.map RRow.price)) (rollingMin 5 (rows.map RRow.price)) from rfl]
    exact replace_zip2_den (fun x y => FV.div (FV.sub x y) y)
      (fun a => replace_div_zero (FV.sub a (.fin 0))) _ _ i hx h
  · intro i h
    have hx : i < (rows.map RRow.price).length := by
      have h' := lt_length_of_get?_some h
      rwa [get_priceUsd, shiftCol, prefMap_length] at h'
    rw [get_replaceStep, show (createTargetVariable horizon (buildFeatures ops rows)).get
      "roc_12" = zip2 (fun a b => FV.div (FV.sub a b) b) (rows.map RRow.price)
        (shiftCol 12 (rows.map RRow.price)) from rfl]
    refine replace_zip2_den (fun x y => FV.div (FV.sub x y) y)
      (fun a => replace_div_zero (FV.sub a (.fin 0))) _ _ i hx ?_
    rwa [get_priceUsd] at h
  · intro i h
    have hx : i < (shiftNegCol (horizon * 12)
        ((buildFeatures ops rows).get "volatility_1h")).length := by
      have h' := lt_length_of_get?_some h
      rw [get_priceUsd] at h'
      rw [shiftNegCol_length, get_volatility_1h, rollingStd, prefMap_length]
      rwa [List.length_map] at h' ⊢
    rw [get_replaceStep, get_target_norm]
    exact replace_zip2_den _ replace_div_zero _ _ i hx h

/-- A 20-row raw series whose prices are all exactly zero, producing
zero denominators in every ratio feature. -/
def rowsZ : List RRow :=
  (List.range 20).map (fun (i : ℕ) => ⟨5 * (i : ℤ), .fin 0⟩)

/-- Witness for C8 at the all-zero-price series. -/
theorem c8_zero_denominator_sentinel_witness :
    ((buildFeatures ops0 rowsZ).get "ma_5").get? 0 = some (.fin 0) ∧
    ((replaceStep (createTargetVariable 1 (buildFeatures ops0 rowsZ))).get
      "price_to_ma5").get? 0 = some .nan ∧
    ((buildFeatures ops0 rowsZ).get "ma_12").get? 0 = some (.fin 0) ∧
    ((replaceStep (createTargetVariable 1 (buildFeatures ops0 rowsZ))).get
      "cv_1h").get? 0 = some .nan ∧
    ((buildFeatures ops0 rowsZ).get "low_5m").get? 4 = some (.fin 0) ∧
    ((replaceStep (createTargetVariable 1 (buildFeatures ops0 rowsZ))).get
      "hl_range_5m").get? 4 = some .nan ∧
    (shiftCol 12 ((buildFeatures ops0 rowsZ).get "priceUsd")).get? 12 = some (.fin 0) ∧
    ((replaceStep (createTargetVariable 1 (buildFeatures ops0 rowsZ))).get
      "roc_12").get? 12 = some .nan ∧
    ((buildFeatures ops0 rowsZ).get "priceUsd").get? 0 = some (.fin 0) ∧
    ((replaceStep (createTargetVariable 1 (buildFeatures ops0 rowsZ))).get
      "target_volatility_norm").get? 0 = some .nan := by
  refine ⟨by with_unfolding_all decide, ?_, by with_unfolding_all decide, ?_,
    by with_unfolding_all decide, ?_, by with_unfolding_all decide, ?_,
    by with_unfolding_all decide, ?_⟩
  · exact (c8_zero_denominator_sentinel ops0 1 rowsZ).2.1 0 (by with_unfolding_all decide)
  · exact (c8_zero_denominator_sentinel ops0 1 rowsZ).2.2.1 0 (by with_unfolding_all decide)
  · exact (c8_zero_denominator_sentinel ops0 1 rowsZ).2.2.2.1 4 (by with_unfolding_all decide)
  · exact (c8_zero_denominator_sentinel ops0 1 rowsZ).2.2.2.2.1 12
      (by with_unfolding_all decide)
  · exact (c8_zero_denominator_sentinel ops0 1 rowsZ).2.2.2.2.2 0
      (by with_unfolding_all decide)

/-!  ## Row-count collapse of the 300-row end-to-end example (C9) -/

/-- Division by NaN yields NaN. -/
theorem FV.div_nan (a : FV) : FV.div a .nan = .nan := by
  cases a <;> rfl

/-- The 24-hour return is NaN on every row with fewer than 288
predecessors: its shifted denominator does not exist there. -/
theorem pctChange_tail_nan (k : ℕ) (p : List FV) (i : ℕ) (hik : i < k)
    (hip : i < p.length) : (pctChangeCol k p).get? i = some .nan := by
  rw [pctChangeCol, zip2_get?, if_pos (by rwa [ffillCol, prefMap_length])]
  have hsh : (shiftCol k (ffillCol p)).get? i = some .nan := by
    rw [shiftCol, prefMap_get?, if_pos (by rwa [ffillCol, prefMap_length]), if_neg (by omega)]
  rw [fvAt_of_get? hsh, FV.div_nan]
  rfl

/-- Filtering lists of equal length by the same mask preserves the
length equality. -/
theorem maskFilter_length_eq {α β : Type} (xs : List α) (ys : List β) (m : List Bool)
    (h : xs.length = ys.length) : (maskFilter xs m).length = (maskFilter ys m).length := by
  induction xs generalizing ys m with
  | nil =>
    cases ys with
    | nil => simp [maskFilter_nil]
    | cons y t => simp at h
  | cons x xt ih =>
    cases ys with
    | nil => simp at h
    | cons y yt =>
      cases m with
      | nil => rfl
      | cons b mt =>
        have hrec := ih yt mt (by simpa using h)
        cases b
        · simpa [maskFilter] using hrec
        · simpa [maskFilter] using hrec

/-- Every member of a filtered list sits at an index where the mask is
true and the source has that value. -/
theorem mem_maskFilter_idx {α : Type} {v : α} {xs : List α} {mask : List Bool}
    (h : v ∈ maskFilter xs mask) :
    ∃ j, xs.get? j = some v ∧ mask.get? j = some true := by
  induction xs generalizing mask with
  | nil => simp [maskFilter] at h
  | cons x xt ih =>
    cases mask with
    | nil => simp [maskFilter] at h
    | cons b mt =>
      rw [maskFilter] at h
      cases b
      · obtain ⟨j, h1, h2⟩ := ih (by simpa using h)
        exact ⟨j + 1, h1, h2⟩
      · rcases List.mem_cons.mp (by simpa using h) with h0 | h0
        · exact ⟨0, by rw [h0]; rfl, rfl⟩
        · obtain ⟨j, h1, h2⟩ := ih h0
          exact ⟨j + 1, h1, h2⟩

/-- Filtering by an all-false mask gives the empty list. -/
theorem maskFilter_nil_of_false {α : Type} (xs : List α) (mask : List Bool)
    (h : ∀ b ∈ mask, b = false) : maskFilter xs mask = [] := by
  induction xs generalizing mask with
  | nil => simp [maskFilter]
  | cons x xt ih =>
    cases mask with
    | nil => rfl
    | cons b mt =>
      have hb : b = false := h b (List.mem_cons_self _ _)
      subst hb
      rw [maskFilter, if_neg (by simp)]
      exact ih mt (fun c hc => h c (List.mem_cons_of_mem _ hc))

/-- A nonempty read of a column exhibits a member of the frame's
column list. -/
theorem get_mem_cols (f : Frame) (name : String) (h : f.get name ≠ []) :
    ∃ pr ∈ f.cols, pr.2 = f.get name := by
  rw [Frame.get] at h ⊢
  cases hfind : f.cols.find? (fun p => p.1 == name) with
  | none =>
    rw [hfind] at h
    exact absurd rfl h
  | some q => exact ⟨q, List.mem_of_find?_eq_some hfind, rfl⟩

/-- On any input series of at most 300 rows, `clean_features` drops
every row: each row that still carries a label has index at most
`n - 13 < 288`, where the 24-hour return (which needs 288 predecessors)
is NaN; forward fill cannot supply a value for an all-NaN column, so
the final `dropna` removes every row. -/
theorem clean_empty_of_small (ops : Ops) (rows : List RRow) (hn : rows.length ≤ 300) :
    (cleanFeatures (createTargetVariable 1 (buildFeatures ops rows))).dates = [] ∧
    ∀ name,
      (cleanFeatures (createTargetVariable 1 (buildFeatures ops rows))).get name = [] := by
  have hvl : ((buildFeatures ops rows).get "volatility_1h").length = rows.length := by
    rw [get_volatility_1h, rollingStd, prefMap_length, List.length_map]
  have hm1 : ∀ j,
      (targetKeepMask (replaceStep (createTargetVariable 1 (buildFeatures ops rows)))).get? j
        = some true → j + 12 < rows.length := by
    intro j hj
    rw [targetKeepMask, get_replaceStep, get_target, List.get?_eq_getElem?,
      List.getElem?_map, List.getElem?_map, ← List.get?_eq_getElem?, shiftNegCol_get?] at hj
    by_cases h1 : j < ((buildFeatures ops rows).get "volatility_1h").length
    · rw [if_pos h1] at hj
      by_cases h2 : j + 1 * 12 < ((buildFeatures ops rows).get "volatility_1h").length
      · rw [hvl] at h2
        omega
      · rw [if_neg h2] at hj
        simp [replaceInfNanV, FV.isNan] at hj
    · rw [if_neg h1] at hj
      simp at hj
  have hpr_tf : (createTargetVariable 1 (buildFeatures ops rows)).get "price_return_24h" =
      pctChangeCol 288 (rows.map RRow.price) := rfl
  have hpr_len : ((replaceStep (createTargetVariable 1 (buildFeatures ops rows))).get
      "price_return_24h").length = rows.length := by
    rw [get_replaceStep, List.length_map, hpr_tf, pctChangeCol, zip2_length, ffillCol,
      prefMap_length, List.length_map]
  have hkey1 : ∀ j v,
      ((replaceStep (createTargetVariable 1 (buildFeatures ops rows))).get
        "price_return_24h").get? j = some v →
      (targetKeepMask (replaceStep (createTargetVariable 1 (buildFeatures ops rows)))).get? j
        = some true → v = .nan := by
    intro j v hv hm
    have hj12 := hm1 j hm
    have hj288 : j < 288 := by omega
    have hjp : j < (rows.map RRow.price).length := by
      rw [List.length_map]
      omega
    rw [get_replaceStep, hpr_tf, List.get?_eq_getElem?, List.getElem?_map,
      ← List.get?_eq_getElem?, pctChange_tail_nan 288 _ j hj288 hjp] at hv
    exact (Option.some.inj hv).symm
  have hffpr : (ffillStep (dropnaTargetStep (replaceStep
      (createTargetVariable 1 (buildFeatures ops rows))))).get "price_return_24h" =
      ffillCol (maskFilter
        ((replaceStep (createTargetVariable 1 (buildFeatures ops rows))).get
          "price_return_24h")
        (targetKeepMask (replaceStep (createTargetVariable 1 (buildFeatures ops rows))))) := by
    rw [get_ffillStep, dropnaTargetStep, get_filterFrame]
  have hkey2 : ∀ v, v ∈ (ffillStep (dropnaTargetStep (replaceStep
      (createTargetVariable 1 (buildFeatures ops rows))))).get "price_return_24h" →
      v = .nan := by
    intro v hv
    rw [hffpr] at hv
    rcases mem_ffillCol hv with h2 | h2
    · obtain ⟨j, hj1, hj2⟩ := mem_maskFilter_idx h2
      exact hkey1 j v hj1 hj2
    · exact h2
  have hdates : (ffillStep (dropnaTargetStep (replaceStep
      (createTargetVariable 1 (buildFeatures ops rows))))).dates =
      maskFilter (rows.map RRow.date)
        (targetKeepMask (replaceStep (createTargetVariable 1 (buildFeatures ops rows)))) := rfl
  have hlen_eq : (ffillStep (dropnaTargetStep (replaceStep
      (createTargetVariable 1 (buildFeatures ops rows))))).dates.length =
      ((ffillStep (dropnaTargetStep (replaceStep
        (createTargetVariable 1 (buildFeatures ops rows))))).get "price_return_24h").length := by
    rw [hdates, hffpr, ffillCol, prefMap_length]
    exact maskFilter_length_eq _ _ _ (by rw [List.length_map, hpr_len])
  have hmask2 : ∀ b, b ∈ (List.range (ffillStep (dropnaTargetStep (replaceStep
      (createTargetVariable 1 (buildFeatures ops rows))))).dates.length).map
        (rowNoNan (ffillStep (dropnaTargetStep (replaceStep
          (createTargetVariable 1 (buildFeatures ops rows)))))) → b = false := by
    intro b hb
    obtain ⟨j, hj, hbj⟩ := List.mem_map.mp hb
    rw [List.mem_range] at hj
    rw [← hbj]
    have hjlen : j < ((ffillStep (dropnaTargetStep (replaceStep
        (createTargetVariable 1 (buildFeatures ops rows))))).get "price_return_24h").length := by
      rw [← hlen_eq]
      exact hj
    have hne : (ffillStep (dropnaTargetStep (replaceStep
        (createTargetVariable 1 (buildFeatures ops rows))))).get "price_return_24h" ≠ [] := by
      intro h0
      rw [h0] at hjlen
      simp at hjlen
    obtain ⟨pr, hprmem, hpreq⟩ := get_mem_cols _ _ hne
    cases hall : rowNoNan (ffillStep (dropnaTargetStep (replaceStep
        (createTargetVariable 1 (buildFeatures ops rows))))) j with
    | false => rfl
    | true =>
      rw [rowNoNan] at hall
      have hpred := List.all_eq_true.mp hall pr hprmem
      have hget := List.get?_eq_get hjlen
      have hwnan := hkey2 _ (List.get_mem _ j hjlen)
      rw [hpreq, fvAt, hget, hwnan] at hpred
      simp [FV.isNan] at hpred
  constructor
  · show maskFilter (ffillStep (dropnaTargetStep (replaceStep
        (createTargetVariable 1 (buildFeatures ops rows))))).dates
        ((List.range (ffillStep (dropnaTargetStep (replaceStep
          (createTargetVariable 1 (buildFeatures ops rows))))).dates.length).map
          (rowNoNan (ffillStep (dropnaTargetStep (replaceStep
            (createTargetVariable 1 (buildFeatures ops rows))))))) = []
    exact maskFilter_nil_of_false _ _ hmask2
  · intro name
    rw [cleanFeatures, dropnaAllStep, get_filterFrame]
    exact maskFilter_nil_of_false _ _ hmask2

/-- Sorted insertion adds one row. -/
theorem insertByDate_length (r : RRow) (l : List RRow) :
    (insertByDate r l).length = l.length + 1 := by
  induction l with
  | nil => rfl
  | cons x xs ih =>
    rw [insertByDate]
    by_cases h : r.date ≤ x.date
    · rw [if_pos h]
      rfl
    · rw [if_neg h, List.length_cons, ih, List.length_cons]

/-- Sorting preserves the row count. -/
theorem sortRowsByDate_length (rows : List RRow) :
    (sortRowsByDate rows).length = rows.length := by
  induction rows with
  | nil => rfl
  | cons x xs ih => rw [sortRowsByDate, insertByDate_length, ih, List.length_cons]

/-- The 300-row linear price ramp of the end-to-end example:
`price[i] = 100 + 0.1 * i` at 5-minute spacing. -/
def ramp300 : List RRow :=
  (List.range 300).map (fun (i : ℕ) => ⟨5 * (i : ℤ), .fin (100 + (i : ℚ) / 10)⟩)

/-- C9 counterexample: on the 300-row linear ramp with horizon 1, the
assembled output of the transform pipeline does NOT contain at least
`300 - 48 - 12 = 240` usable rows: it is empty, because every row that
keeps a label (index at most 287) lacks the 24-hour return feature
(first defined at index 288), which forward fill cannot supply, so the
final `dropna` removes every row. -/
theorem c9_counterexample :
    ¬ 240 ≤ (transformPipeline ops0 1 ramp300).dates.length := by
  have h := (clean_empty_of_small ops0 (sortRowsByDate ramp300)
    (by rw [sortRowsByDate_length, ramp300, List.length_map, List.length_range])).1
  rw [transformPipeline, h]
  simp

/-- C9 (amended): for the 300-row linear ramp at 5-minute spacing with
horizon 1, the assembled output of the transform pipeline is empty
(zero usable rows rather than the claimed at-least-240); vacuously,
every return feature of the output is finite and every RSI value of
the output lies in [0, 100].  This holds for every rounding of the
irrational primitives. -/
theorem c9_empty_output (ops : Ops) :
    (transformPipeline ops 1 ramp300).dates = [] ∧
    ∀ name, (transformPipeline ops 1 ramp300).get name = [] := by
  have h := clean_empty_of_small ops (sortRowsByDate ramp300)
    (by rw [sortRowsByDate_length, ramp300, List.length_map, List.length_range])
  exact ⟨h.1, h.2⟩

/-!  ## Causality of the feature pipeline (C2) -/

/-- A whole-column operator is causal when it preserves the length and
its first `i+1` output entries are determined by the first `i+1` input
entries. -/
def CausalF (F : List FV → List FV) : Prop :=
  (∀ xs, (F xs).length = xs.length) ∧
  ∀ (i : ℕ) (xs ys : List FV), i < xs.length → i < ys.length →
    xs.take (i + 1) = ys.take (i + 1) → (F xs).take (i + 1) = (F ys).take (i + 1)

/-- Agreement of prefixes gives agreement of in-range entries. -/
theorem get?_eq_of_take_eq {α : Type} {xs ys : List α} {i j : ℕ}
    (h : xs.take (i + 1) = ys.take (i + 1)) (hj : j ≤ i) : xs.get? j = ys.get? j := by
  rw [← List.get?_take (show j < i + 1 by omega), h,
    List.get?_take (show j < i + 1 by omega)]

/-- Agreement of prefixes gives agreement of `fvAt` values. -/
theorem fvAt_eq_of_take_eq {xs ys : List FV} {i j : ℕ}
    (h : xs.take (i + 1) = ys.take (i + 1)) (hj : j ≤ i) : fvAt xs j = fvAt ys j := by
  rw [fvAt, fvAt, get?_eq_of_take_eq h hj]

/-- Shorter prefixes of equal prefixes are equal. -/
theorem take_eq_of_take_eq {α : Type} {xs ys : List α} {i j : ℕ}
    (h : xs.take (i + 1) = ys.take (i + 1)) (hj : j ≤ i) :
    xs.take (j + 1) = ys.take (j + 1) := by
  have hjle : min (j + 1) (i + 1) = j + 1 := by omega
  rw [← hjle, ← List.take_take, h, List.take_take]

/-- Every prefix-built column operator is causal. -/
theorem causal_prefMap (G : List FV → ℕ → FV) : CausalF (prefMap G) := by
  refine ⟨prefMap_length G, ?_⟩
  intro i xs ys hx hy h
  rw [prefMap, prefMap, idxMap, idxMap, ← List.map_take, ← List.map_take,
    List.take_range, List.take_range, Nat.min_eq_left (by omega), Nat.min_eq_left (by omega)]
  apply List.map_congr_left
  intro j hj
  rw [List.mem_range] at hj
  rw [take_eq_of_take_eq h (by omega)]

/-- The identity column operator is causal. -/
theorem causal_id : CausalF (fun xs => xs) :=
  ⟨fun _ => rfl, fun _ _ _ _ _ h => h⟩

/-- Composition preserves causality. -/
theorem causal_comp (F G : List FV → List FV) (hF : CausalF F) (hG : CausalF G) :
    CausalF (fun xs => F (G xs)) := by
  refine ⟨fun xs => by rw [hF.1, hG.1], ?_⟩
  intro i xs ys hx hy h
  exact hF.2 i _ _ (by rw [hG.1]; exact hx) (by rw [hG.1]; exact hy) (hG.2 i xs ys hx hy h)

/-- Elementwise combination of causal operators is causal. -/
theorem causal_zip2 (g : FV → FV → FV) (F G : List FV → List FV)
    (hF : CausalF F) (hG : CausalF G) : CausalF (fun xs => zip2 g (F xs) (G xs)) := by
  refine ⟨fun xs => by rw [zip2_length, hF.1], ?_⟩
  intro i xs ys hx hy h
  have h1 := hF.2 i xs ys hx hy h
  have h2 := hG.2 i xs ys hx hy h
  show (zip2 g (F xs) (G xs)).take (i + 1) = (zip2 g (F ys) (G ys)).take (i + 1)
  rw [zip2, zip2, idxMap, idxMap, ← List.map_take, ← List.map_take, List.take_range,
    List.take_range, Nat.min_eq_left (by rw [hF.1]; omega),
    Nat.min_eq_left (by rw [hF.1]; omega)]
  apply List.map_congr_left
  intro j hj
  rw [List.mem_range] at hj
  rw [fvAt_eq_of_take_eq h1 (by omega), fvAt_eq_of_take_eq h2 (by omega)]

/-- A feature-column specification (a function of the date and price
columns) is causal when, on series in timestamp order, its first `i+1`
entries are determined by the first `i+1` dates and prices. -/
def ColOK (F : List ℤ → List FV → List FV) : Prop :=
  ∀ (i : ℕ) (d₁ d₂ : List ℤ) (p₁ p₂ : List FV),
    d₁.Pairwise (· ≤ ·) → d₂.Pairwise (· ≤ ·) →
    d₁.take (i + 1) = d₂.take (i + 1) → p₁.take (i + 1) = p₂.take (i + 1) →
    i < d₁.length → i < d₂.length → i < p₁.length → i < p₂.length →
    (F d₁ p₁).take (i + 1) = (F d₂ p₂).take (i + 1)

/-- A causal price-column operator is a causal specification. -/
theorem colOK_ofP (F : List FV → List FV) (hF : CausalF F) : ColOK (fun _ p => F p) :=
  fun i _ _ p₁ p₂ _ _ _ hp _ _ h3 h4 => hF.2 i p₁ p₂ h3 h4 hp

/-- A pointwise function of the date column is a causal specification. -/
theorem colOK_dateMap (g : ℤ → FV) : ColOK (fun d _ => d.map g) := by
  intro i d₁ d₂ _ _ _ _ hd _ _ _ _ _
  rw [← List.map_take, ← List.map_take, hd]

/-- Folding the minimum over elements the seed bounds returns the seed. -/
theorem foldl_min_of_le (t : List ℤ) (a : ℤ) (h : ∀ x ∈ t, a ≤ x) :
    t.foldl min a = a := by
  induction t with
  | nil => rfl
  | cons x xs ih =>
    rw [List.foldl_cons, min_eq_left (h x (List.mem_cons_self _ _))]
    exact ih (fun y hy => h y (List.mem_cons_of_mem _ hy))

/-- `hours_elapsed` is a causal specification: on a series in timestamp
order the minimum date is the first date, which lies in every prefix. -/
theorem colOK_hoursElapsed : ColOK (fun d _ => hoursElapsedCol d) := by
  intro i d₁ d₂ _ _ hs₁ hs₂ hd _ h1 h2 _ _
  cases d₁ with
  | nil => simp at h1
  | cons a t₁ =>
    cases d₂ with
    | nil => simp at h2
    | cons b t₂ =>
      rw [List.take_succ_cons, List.take_succ_cons] at hd
      have hab : a = b := (List.cons.inj hd).1
      have ht : t₁.take i = t₂.take i := (List.cons.inj hd).2
      have hmin : datesMin (a :: t₁) = datesMin (b :: t₂) := by
        rw [datesMin, datesMin,
          foldl_min_of_le t₁ a (List.pairwise_cons.mp hs₁).1,
          foldl_min_of_le t₂ b (List.pairwise_cons.mp hs₂).1, hab]
      show (hoursElapsedCol (a :: t₁)).take (i + 1) = (hoursElapsedCol (b :: t₂)).take (i + 1)
      rw [hoursElapsedCol, hoursElapsedCol, hmin, ← List.map_take, ← List.map_take,
        List.take_succ_cons, List.take_succ_cons, hab, ht]

/-- Reading a column of a frame with one more column. -/
theorem get_cons (d : List ℤ) (pc : String × List FV) (rest : List (String × List FV))
    (name : String) :
    Frame.get ⟨d, pc :: rest⟩ name =
      if (pc.1 == name) = true then pc.2 else Frame.get ⟨d, rest⟩ name := by
  by_cases hb : (pc.1 == name) = true
  · simp [Frame.get, List.find?_cons, hb]
  · have hb' : (pc.1 == name) = false := by simpa using hb
    simp [Frame.get, List.find?_cons, hb']

/-- Two frames built from the same causal column specifications over
prefix-agreeing sorted inputs agree on every column entry up to the
agreement index. -/
theorem specs_get_congr (specs : List (String × (List ℤ → List FV → List FV)))
    (H : ∀ s ∈ specs, ColOK s.2) (i : ℕ) (d₁ d₂ : List ℤ) (p₁ p₂ : List FV) (name : String)
    (hs₁ : d₁.Pairwise (· ≤ ·)) (hs₂ : d₂.Pairwise (· ≤ ·))
    (hd : d₁.take (i + 1) = d₂.take (i + 1)) (hp : p₁.take (i + 1) = p₂.take (i + 1))
    (h1 : i < d₁.length) (h2 : i < d₂.length) (h3 : i < p₁.length) (h4 : i < p₂.length) :
    (Frame.get ⟨d₁, specs.map (fun s => (s.1, s.2 d₁ p₁))⟩ name).get? i =
      (Frame.get ⟨d₂, specs.map (fun s => (s.1, s.2 d₂ p₂))⟩ name).get? i := by
  induction specs with
  | nil => rfl
  | cons s t ih =>
    rw [List.map_cons, List.map_cons, get_cons, get_cons]
    by_cases hb : (s.1 == name) = true
    · rw [if_pos hb, if_pos hb]
      exact get?_eq_of_take_eq
        (H s (List.mem_cons_self _ _) i d₁ d₂ p₁ p₂ hs₁ hs₂ hd hp h1 h2 h3 h4) (le_refl i)
    · rw [if_neg hb, if_neg hb]
      exact ih (fun s' hs' => H s' (List.mem_cons_of_mem _ hs'))

/-- `pct_change` is causal (forward fill and shift read the past only). -/
theorem causal_pctChangeCol (k : ℕ) : CausalF (pctChangeCol k) :=
  causal_zip2 (fun a b => FV.sub (FV.div a b) (.fin 1)) ffillCol
    (fun xs => shiftCol k (ffillCol xs)) (causal_prefMap _)
    (causal_comp (shiftCol k) ffillCol (causal_prefMap _) (causal_prefMap _))

/-- Rate of change is causal. -/
theorem causal_rocCol (k : ℕ) : CausalF (rocCol k) :=
  causal_zip2 (fun a b => FV.div (FV.sub a b) b) (fun xs => xs) (shiftCol k)
    causal_id (causal_prefMap _)

/-- Pointwise columns are causal. -/
theorem causal_mapCol (g : FV → FV) : CausalF (mapCol g) := causal_prefMap _

/-- The positive part of the delta column is causal. -/
theorem causal_posPartCol : CausalF posPartCol := causal_mapCol _

/-- The negated negative part of the delta column is causal. -/
theorem causal_negPartCol : CausalF negPartCol := causal_mapCol _

/-- RSI is causal: all ingredients are diffs and trailing-window means. -/
theorem causal_rsiCol : CausalF rsiCol :=
  causal_comp (mapCol (fun r => FV.sub (.fin 100) (FV.div (.fin 100) (FV.add (.fin 1) r))))
    (fun xs => zip2 FV.div (rollingMean 14 14 (posPartCol (diffCol xs)))
      (rollingMean 14 14 (negPartCol (diffCol xs))))
    (causal_prefMap _)
    (causal_zip2 FV.div
      (fun xs => rollingMean 14 14 (posPartCol (diffCol xs)))
      (fun xs => rollingMean 14 14 (negPartCol (diffCol xs)))
      (causal_comp (rollingMean 14 14) (fun xs => posPartCol (diffCol xs)) (causal_prefMap _)
        (causal_comp posPartCol diffCol causal_posPartCol (causal_prefMap _)))
      (causal_comp (rollingMean 14 14) (fun xs => negPartCol (diffCol xs)) (causal_prefMap _)
        (causal_comp negPartCol diffCol causal_negPartCol (causal_prefMap _))))

/-- Every column specification of the feature pipeline is causal. -/
theorem featureSpecs_colOK (ops : Ops) : ∀ s ∈ featureSpecs ops, ColOK s.2 := by
  intro s hs
  rw [featureSpecs] at hs
  simp only [List.mem_cons, List.not_mem_nil, or_false] at hs
  rcases hs with rfl|rfl|rfl|rfl|rfl|rfl|rfl|rfl|rfl|rfl|rfl|rfl|rfl|rfl|rfl|rfl|rfl|rfl|
    rfl|rfl|rfl|rfl|rfl|rfl|rfl|rfl|rfl|rfl|rfl|rfl|rfl|rfl|rfl|rfl|rfl|rfl|rfl|rfl|rfl|
    rfl|rfl|rfl|rfl|rfl|rfl|rfl|rfl|rfl|rfl|rfl|rfl|rfl|rfl
  · exact colOK_ofP (fun p => p) causal_id
  · exact colOK_ofP (pctChangeCol 1) (causal_pctChangeCol 1)
  · exact colOK_ofP (pctChangeCol 3) (causal_pctChangeCol 3)
  · exact colOK_ofP (pctChangeCol 6) (causal_pctChangeCol 6)
  · exact colOK_ofP (pctChangeCol 12) (causal_pctChangeCol 12)
  · exact colOK_ofP (pctChangeCol 48) (causal_pctChangeCol 48)
  · exact colOK_ofP (pctChangeCol 288) (causal_pctChangeCol 288)
  · exact colOK_ofP (rollingMean 5 1) (causal_prefMap _)
  · exact colOK_ofP (rollingMean 12 1) (causal_prefMap _)
  · exact colOK_ofP (rollingMean 48 1) (causal_prefMap _)
  · exact colOK_ofP (rollingMean 144 1) (causal_prefMap _)
  · exact colOK_ofP (fun p => zip2 FV.div p (rollingMean 5 1 p))
      (causal_zip2 FV.div (fun xs => xs) (rollingMean 5 1) causal_id (causal_prefMap _))
  · exact colOK_ofP (fun p => zip2 FV.div p (rollingMean 12 1 p))
      (causal_zip2 FV.div (fun xs => xs) (rollingMean 12 1) causal_id (causal_prefMap _))
  · exact colOK_ofP (fun p => zip2 FV.div p (rollingMean 48 1 p))
      (causal_zip2 FV.div (fun xs => xs) (rollingMean 48 1) causal_id (causal_prefMap _))
  · exact colOK_ofP (ewmCol (2 / 13)) (causal_prefMap _)
  · exact colOK_ofP (ewmCol (2 / 49)) (causal_prefMap _)
  · exact colOK_ofP (fun p => zip2 FV.sub (ewmCol (2 / 13) p) (ewmCol (2 / 49) p))
      (causal_zip2 FV.sub (ewmCol (2 / 13)) (ewmCol (2 / 49))
        (causal_prefMap _) (causal_prefMap _))
  · exact colOK_ofP
      (fun p => ewmCol (2 / 10) (zip2 FV.sub (ewmCol (2 / 13) p) (ewmCol (2 / 49) p)))
      (causal_comp (ewmCol (2 / 10))
        (fun p => zip2 FV.sub (ewmCol (2 / 13) p) (ewmCol (2 / 49) p)) (causal_prefMap _)
        (causal_zip2 FV.sub (ewmCol (2 / 13)) (ewmCol (2 / 49))
          (causal_prefMap _) (causal_prefMap _)))
  · exact colOK_ofP (rollingStd ops 5 2) (causal_prefMap _)
  · exact colOK_ofP (rollingStd ops 30 5) (causal_prefMap _)
  · exact colOK_ofP (rollingStd ops 12 5) (causal_prefMap _)
  · exact colOK_ofP (rollingStd ops 48 10) (causal_prefMap _)
  · exact colOK_ofP (fun p => zip2 FV.div (rollingStd ops 12 5 p) (rollingMean 12 1 p))
      (causal_zip2 FV.div (rollingStd ops 12 5) (rollingMean 12 1)
        (causal_prefMap _) (causal_prefMap _))
  · exact colOK_ofP (fun p => zip2 FV.div (rollingStd ops 48 10 p) (rollingMean 48 1 p))
      (causal_zip2 FV.div (rollingStd ops 48 10) (rollingMean 48 1)
        (causal_prefMap _) (causal_prefMap _))
  · exact colOK_ofP (rollingMax 5) (causal_prefMap _)
  · exact colOK_ofP (rollingMin 5) (causal_prefMap _)
  · exact colOK_ofP
      (fun p => zip2 (fun h l => FV.div (FV.sub h l) l) (rollingMax 5 p) (rollingMin 5 p))
      (causal_zip2 (fun h l => FV.div (FV.sub h l) l) (rollingMax 5) (rollingMin 5)
        (causal_prefMap _) (causal_prefMap _))
  · exact colOK_ofP (rollingMax 12) (causal_prefMap _)
  · exact colOK_ofP (rollingMin 12) (causal_prefMap _)
  · exact colOK_ofP
      (fun p => zip2 (fun h l => FV.div (FV.sub h l) l) (rollingMax 12 p) (rollingMin 12 p))
      (causal_zip2 (fun h l => FV.div (FV.sub h l) l) (rollingMax 12) (rollingMin 12)
        (causal_prefMap _) (causal_prefMap _))
  · exact colOK_ofP (rocCol 12) (causal_rocCol 12)
  · exact colOK_ofP (rocCol 48) (causal_rocCol 48)
  · exact colOK_ofP rsiCol causal_rsiCol
  · exact colOK_ofP (fun p => diffCol (pctChangeCol 1 p))
      (causal_comp diffCol (pctChangeCol 1) (causal_prefMap _) (causal_pctChangeCol 1))
  · exact colOK_dateMap _
  · exact colOK_dateMap _
  · exact colOK_dateMap _
  · exact colOK_dateMap _
  · exact colOK_dateMap _
  · exact colOK_dateMap _
  · exact colOK_dateMap _
  · exact colOK_dateMap _
  · exact colOK_hoursElapsed
  · exact colOK_ofP (shiftCol 1) (causal_prefMap _)
  · exact colOK_ofP (fun p => shiftCol 1 (rollingStd ops 12 5 p))
      (causal_comp (shiftCol 1) (rollingStd ops 12 5) (causal_prefMap _) (causal_prefMap _))
  · exact colOK_ofP (shiftCol 2) (causal_prefMap _)
  · exact colOK_ofP (fun p => shiftCol 2 (rollingStd ops 12 5 p))
      (causal_comp (shiftCol 2) (rollingStd ops 12 5) (causal_prefMap _) (causal_prefMap _))
  · exact colOK_ofP (shiftCol 3) (causal_prefMap _)
  · exact colOK_ofP (fun p => shiftCol 3 (rollingStd ops 12 5 p))
      (causal_comp (shiftCol 3) (rollingStd ops 12 5) (causal_prefMap _) (causal_prefMap _))
  · exact colOK_ofP (shiftCol 6) (causal_prefMap _)
  · exact colOK_ofP (fun p => shiftCol 6 (rollingStd ops 12 5 p))
      (causal_comp (shiftCol 6) (rollingStd ops 12 5) (causal_prefMap _) (causal_prefMap _))
  · exact colOK_ofP (shiftCol 12) (causal_prefMap _)
  · exact colOK_ofP (fun p => shiftCol 12 (rollingStd ops 12 5 p))
      (causal_comp (shiftCol 12) (rollingStd ops 12 5) (causal_prefMap _) (causal_prefMap _))

/-- C2 (causality): for any two raw series in timestamp order that
agree on all rows up to and including index `i`, every feature column
of the built frame has identical value at row `i`, no matter how the
rows after index `i` differ (including in number).  The statement
quantifies over every column name; absent names read equal (empty)
columns on both sides. -/
theorem c2_causality (ops : Ops) (rows₁ rows₂ : List RRow) (i : ℕ) (name : String)
    (hs₁ : (rows₁.map RRow.date).Pairwise (· ≤ ·))
    (hs₂ : (rows₂.map RRow.date).Pairwise (· ≤ ·))
    (hpre : rows₁.take (i + 1) = rows₂.take (i + 1))
    (h₁ : i < rows₁.length) (h₂ : i < rows₂.length) :
    ((buildFeatures ops rows₁).get name).get? i =
      ((buildFeatures ops rows₂).get name).get? i := by
  have hd : (rows₁.map RRow.date).take (i + 1) = (rows₂.map RRow.date).take (i + 1) := by
    rw [← List.map_take, ← List.map_take, hpre]
  have hp : (rows₁.map RRow.price).take (i + 1) = (rows₂.map RRow.price).take (i + 1) := by
    rw [← List.map_take, ← List.map_take, hpre]
  exact specs_get_congr (featureSpecs ops) (featureSpecs_colOK ops) i _ _ _ _ name hs₁ hs₂
    hd hp (by rw [List.length_map]; exact h₁) (by rw [List.length_map]; exact h₂)
    (by rw [List.length_map]; exact h₁) (by rw [List.length_map]; exact h₂)

/-- A second series agreeing with `rows30` on its first three rows and
then diverging completely. -/
def rowsAlt : List RRow :=
  rows30.take 3 ++ [⟨500, .fin 7⟩]

/-- Witness for C2: the two concrete series agree up to index 2 and
their `ma_5` features at row 2 coincide. -/
theorem c2_causality_witness :
    (rows30.map RRow.date).Pairwise (· ≤ ·) ∧
    (rowsAlt.map RRow.date).Pairwise (· ≤ ·) ∧
    rows30.take 3 = rowsAlt.take 3 ∧ 2 < rows30.length ∧ 2 < rowsAlt.length ∧
    ((buildFeatures ops0 rows30).get "ma_5").get? 2 =
      ((buildFeatures ops0 rowsAlt).get "ma_5").get? 2 :=
  ⟨by with_unfolding_all decide, by with_unfolding_all decide, by with_unfolding_all decide,
   by with_unfolding_all decide, by with_unfolding_all decide,
   c2_causality ops0 rows30 rowsAlt 2 "ma_5" (by with_unfolding_all decide)
     (by with_unfolding_all decide) (by with_unfolding_all decide)
     (by with_unfolding_all decide) (by with_unfolding_all decide)⟩
